import Mathlib

/-!
Verification of the pattern-intelligence engine of the `agency-access`
repository (scripts/automation/observers). Python functions are shallowly
embedded as Lean definitions; Python `float` arithmetic is modelled by `ℚ`
(exact field arithmetic) except where a square root occurs, which is
modelled over `ℝ`. Python `int` is modelled by `ℤ` (or `ℕ` where the value
is a count by construction), Python lists by `List`, Python sets by
`Finset`, and SQL tables by lists of row structures.
-/

namespace AgencyAccess

/-! ## pattern_models.py -/

/-- Embeds `calculate_jaccard_similarity` from
`scripts/automation/observers/pattern_models.py` (lines 190-206).
`if not set1 or not set2: return 0.0`, then
`intersection / union if union > 0 else 0.0`. -/
def calculate_jaccard_similarity (set1 set2 : Finset String) : ℚ :=
  if set1 = ∅ ∨ set2 = ∅ then 0
  else
    let intersection : ℕ := (set1 ∩ set2).card
    let union : ℕ := (set1 ∪ set2).card
    if 0 < union then (intersection : ℚ) / (union : ℚ) else 0

/-! ## Stable sorting (model of CPython `list.sort` / `sorted`)

CPython's sort is stable. A stable sort with respect to a comparator is
unique as a function of the input list, so the insertion sort below is an
exact model of `list.sort(key=...)` for the total, transitive comparators
used in this repository. -/

/-- Insert `a` into `l` before the first element `b` with `le a b`. -/
def insertLe {α : Type} (le : α → α → Bool) (a : α) : List α → List α
  | [] => [a]
  | b :: bs => if le a b then a :: b :: bs else b :: insertLe le a bs

/-- Stable insertion sort with comparator `le`. -/
def pySort {α : Type} (le : α → α → Bool) : List α → List α
  | [] => []
  | a :: as => insertLe le a (pySort le as)

theorem length_insertLe {α : Type} (le : α → α → Bool) (a : α) (l : List α) :
    (insertLe le a l).length = l.length + 1 := by
  induction l with
  | nil => rfl
  | cons b bs ih =>
    simp only [insertLe]
    split <;> simp [ih]

theorem length_pySort {α : Type} (le : α → α → Bool) (l : List α) :
    (pySort le l).length = l.length := by
  induction l with
  | nil => rfl
  | cons a as ih => simp [pySort, length_insertLe, ih]

theorem mem_insertLe {α : Type} (le : α → α → Bool) (a x : α) (l : List α) :
    x ∈ insertLe le a l ↔ x = a ∨ x ∈ l := by
  induction l with
  | nil => simp [insertLe]
  | cons b bs ih =>
    simp only [insertLe]
    split
    · simp
    · simp only [List.mem_cons, ih]
      tauto

theorem mem_pySort {α : Type} (le : α → α → Bool) (x : α) (l : List α) :
    x ∈ pySort le l ↔ x ∈ l := by
  induction l with
  | nil => simp [pySort]
  | cons a as ih => simp [pySort, mem_insertLe, ih]

theorem pairwise_insertLe {α : Type} (le : α → α → Bool)
    (htot : ∀ a b, le a b = true ∨ le b a = true)
    (htrans : ∀ a b c, le a b = true → le b c = true → le a c = true)
    (a : α) (l : List α) (h : l.Pairwise (fun x y => le x y = true)) :
    (insertLe le a l).Pairwise (fun x y => le x y = true) := by
  induction l with
  | nil => simp [insertLe]
  | cons b bs ih =>
    rcases List.pairwise_cons.mp h with ⟨hb, hbs⟩
    simp only [insertLe]
    split
    · rename_i hab
      refine List.pairwise_cons.mpr ⟨?_, h⟩
      intro x hx
      rcases List.mem_cons.mp hx with hxb | hxbs
      · subst hxb; exact hab
      · exact htrans a b x hab (hb x hxbs)
    · rename_i hab
      have hba : le b a = true := by
        rcases htot a b with h1 | h1
        · exact absurd h1 hab
        · exact h1
      refine List.pairwise_cons.mpr ⟨?_, ih hbs⟩
      intro x hx
      rcases (mem_insertLe le a x bs).mp hx with hxa | hxbs
      · subst hxa; exact hba
      · exact hb x hxbs

theorem pairwise_pySort {α : Type} (le : α → α → Bool)
    (htot : ∀ a b, le a b = true ∨ le b a = true)
    (htrans : ∀ a b c, le a b = true → le b c = true → le a c = true)
    (l : List α) :
    (pySort le l).Pairwise (fun x y => le x y = true) := by
  induction l with
  | nil => simp [pySort]
  | cons a as ih => exact pairwise_insertLe le htot htrans a _ ih

/-- Python's builtin `min(a, b)`: returns `b` when `b < a`, else the first
argument `a`. Agrees with Mathlib's `min` (see `pyMin_eq_min`); kept as an
explicit `if` so that concrete instances evaluate by `decide`. -/
def pyMin (a b : ℚ) : ℚ := if b < a then b else a

theorem pyMin_eq_min (a b : ℚ) : pyMin a b = min a b := by
  simp only [pyMin, min_def]
  by_cases h : b < a
  · simp [h, not_le.mpr h]
  · have h2 : a ≤ b := not_lt.mp h
    simp [h, h2]

/-- Python's builtin `max(a, b)` on ints: returns `b` when `a < b`, else
the first argument `a`. Agrees with Mathlib's `max` (see `pyMax_eq_max`). -/
def pyMax (a b : ℤ) : ℤ := if a < b then b else a

theorem pyMax_eq_max (a b : ℤ) : pyMax a b = max a b := by
  simp only [pyMax, max_def]
  by_cases h : a < b
  · simp [h, le_of_lt h]
  · have h2 : b ≤ a := not_lt.mp h
    by_cases he : a ≤ b
    · have : a = b := le_antisymm he h2
      simp [this]
    · simp [h, he]

/-! ## pattern_models.py — data structures -/

/-- Embeds dataclass `CommandSequence` (pattern_models.py lines 18-31). -/
structure CommandSequence where
  sequence : List String
  occurrence_count : ℕ
  avg_duration_ms : ℤ
  confidence : ℚ
deriving DecidableEq, Repr

/-- Embeds dataclass `FileCluster` (pattern_models.py lines 34-46). -/
structure FileCluster where
  files : List String
  co_occurrence_count : ℕ
  jaccard_similarity : ℚ
  cluster_id : String
deriving DecidableEq, Repr

/-- Embeds dataclass `TimePatternSummary` (pattern_models.py lines 49-72);
`session_count_by_hour` (a Python dict) is modelled as an association list. -/
structure TimePatternSummary where
  peak_hours : List ℤ
  peak_days : List ℤ
  avg_session_duration_minutes : ℚ
  session_count_by_hour : List (ℤ × ℕ)
  most_productive_hour : Option ℤ
deriving DecidableEq, Repr

/-- Embeds dataclass `SuccessCorrelation` (pattern_models.py lines 75-86). -/
structure SuccessCorrelation where
  activity_type : String
  activity_pattern : String
  outcome_type : String
  correlation_strength : ℚ
  sample_size : ℕ
  time_window_minutes : ℕ
deriving DecidableEq, Repr

/-- Embeds dataclass `PatternReport` (pattern_models.py lines 89-115). -/
structure PatternReport where
  command_sequences : List CommandSequence
  file_clusters : List FileCluster
  time_patterns : Option TimePatternSummary
  success_correlations : List SuccessCorrelation
  analysis_timestamp : String
  confidence : ℚ
deriving DecidableEq, Repr

/-- Embeds the `PatternReport.pattern_count` property
(pattern_models.py lines 103-111). -/
def PatternReport.pattern_count (r : PatternReport) : ℕ :=
  r.command_sequences.length + r.file_clusters.length +
    r.success_correlations.length + (if r.time_patterns.isSome then 1 else 0)

/-! ## pattern_analyzer.py -/

/-- Embeds the report-composition step of
`PatternAnalyzer.analyze_all_patterns` (pattern_analyzer.py lines 84-121):
the four sub-analysis results (obtained by database queries in the source)
are taken as arguments; `pattern_count` there is the local variable of
lines 98-102 and `confidence = min(1.0, pattern_count / 10.0)` (line 103). -/
def analyze_all_patterns (command_sequences : List CommandSequence)
    (file_clusters : List FileCluster) (time_patterns : Option TimePatternSummary)
    (success_correlations : List SuccessCorrelation)
    (analysis_timestamp : String) : PatternReport :=
  let pattern_count : ℕ :=
    command_sequences.length + file_clusters.length + success_correlations.length
  let confidence : ℚ := pyMin 1 ((pattern_count : ℚ) / 10)
  { command_sequences := command_sequences
    file_clusters := file_clusters
    time_patterns := time_patterns
    success_correlations := success_correlations
    analysis_timestamp := analysis_timestamp
    confidence := confidence }

/-- All contiguous windows of length `n` of a session's command list:
the inner loop `for i in range(len(commands) - n + 1)` of
`analyze_command_sequences`, guarded by `if len(commands) < n: continue`
(pattern_analyzer.py lines 158-164). -/
def windowsOf (n : ℕ) (commands : List String) : List (List String) :=
  if commands.length < n then []
  else (List.range (commands.length - n + 1)).map fun i => (commands.drop i).take n

/-- The keys of a `collections.Counter` built from `l`, in first-occurrence
(insertion) order, as CPython dicts preserve. -/
def counterKeys (l : List (List String)) : List (List String) :=
  l.foldl (fun acc w => if w ∈ acc then acc else acc ++ [w]) []

/-- Embeds `Counter.most_common()`: (key, count) pairs sorted by count
descending, ties in insertion order (CPython uses a stable descending
sort by count). -/
def mostCommon (l : List (List String)) : List (List String × ℕ) :=
  pySort (fun p q => Nat.ble q.2 p.2) ((counterKeys l).map fun w => (w, l.count w))

/-- Embeds the mining core of `PatternAnalyzer.analyze_command_sequences`
(pattern_analyzer.py lines 123-182): the database query and per-session
grouping are taken as the `session_sequences` argument (one command list
per session, in temporal order); windows are counted over all sessions,
and sequences with `count ≥ min_occurrences` are kept in `most_common`
order with `confidence = min(1.0, count / 10.0)` and `avg_duration_ms = 0`. -/
def analyze_command_sequences (session_sequences : List (List String))
    (n min_occurrences : ℕ) : List CommandSequence :=
  let allWindows := session_sequences.flatMap (windowsOf n)
  (mostCommon allWindows).filterMap fun p =>
    if min_occurrences ≤ p.2 then
      some ⟨p.1, p.2, 0, pyMin 1 ((p.2 : ℚ) / 10)⟩
    else none

/-! ## Theorems for claim C6 -/

/-- C6: for the single session `["a","b","c","a","b","c"]` with window
length `n = 3` and `min_occurrences = 2`, all four contiguous windows
(including the overlapping ones) are counted, and exactly one
`CommandSequence` survives: `["a","b","c"]` with `occurrence_count = 2`
and `confidence = min(1, 2/10)`. -/
theorem c6_sequence_mining :
    windowsOf 3 ["a", "b", "c", "a", "b", "c"] =
      [["a", "b", "c"], ["b", "c", "a"], ["c", "a", "b"], ["a", "b", "c"]] ∧
    analyze_command_sequences [["a", "b", "c", "a", "b", "c"]] 3 2 =
      [⟨["a", "b", "c"], 2, 0, 2 / 10⟩] ∧
    (2 : ℚ) / 10 = min 1 (2 / 10) := by
  have hmc : mostCommon ([["a", "b", "c", "a", "b", "c"]].flatMap (windowsOf 3)) =
      [(["a", "b", "c"], 2), (["b", "c", "a"], 1), (["c", "a", "b"], 1)] := by decide
  refine ⟨by decide, ?_, (min_eq_right (by norm_num)).symm⟩
  simp only [analyze_command_sequences, hmc]
  norm_num [List.filterMap, pyMin]

/-! ## Theorems for claim C4 -/

/-- C4 counterexample: with no command sequences, file clusters or success
correlations but a present time-pattern summary, `analyze_all_patterns`
sets `confidence = min(1, 0/10) = 0`, while the report's derived
`pattern_count` is `1`, so `min(1, pattern_count/10) = 1/10 ≠ 0`. -/
theorem c4_counterexample :
    (analyze_all_patterns [] [] (some ⟨[], [], 0, [], none⟩) [] "t").confidence = 0 ∧
    (analyze_all_patterns [] [] (some ⟨[], [], 0, [], none⟩) [] "t").pattern_count = 1 ∧
    min 1 ((1 : ℚ) / 10) = 1 / 10 ∧ (0 : ℚ) ≠ 1 / 10 := by
  refine ⟨?_, by decide, min_eq_right (by norm_num), by norm_num⟩
  norm_num [analyze_all_patterns, pyMin]

/-- C4 amended: the overall confidence equals
`min(1, (#sequences + #clusters + #correlations)/10)` — the time-pattern
summary is *not* counted — and therefore agrees with
`min(1, pattern_count/10)` exactly on reports without a time-pattern
summary. -/
theorem c4_amended (cs : List CommandSequence) (fc : List FileCluster)
    (tp : Option TimePatternSummary) (sc : List SuccessCorrelation) (ts : String) :
    (analyze_all_patterns cs fc tp sc ts).confidence =
      min 1 (((cs.length + fc.length + sc.length : ℕ) : ℚ) / 10) ∧
    (tp = none →
      (analyze_all_patterns cs fc tp sc ts).confidence =
        min 1 (((analyze_all_patterns cs fc tp sc ts).pattern_count : ℚ) / 10)) := by
  constructor
  · simp [analyze_all_patterns, pyMin_eq_min]
  · intro htp
    subst htp
    simp [analyze_all_patterns, PatternReport.pattern_count, pyMin_eq_min]

/-- Closed witness for `c4_amended` at concrete inputs. -/
theorem c4_witness :
    (analyze_all_patterns [] [] none [] "t").confidence =
      min 1 ((((0 : ℕ) + 0 + 0 : ℕ) : ℚ) / 10) ∧
    ((none : Option TimePatternSummary) = none →
      (analyze_all_patterns [] [] none [] "t").confidence =
        min 1 (((analyze_all_patterns [] [] none [] "t").pattern_count : ℚ) / 10)) :=
  c4_amended [] [] none [] "t"

/-! ## executive_models.py — enums and helper functions -/

/-- Embeds enum `TrendDirection` (executive_models.py lines 21-26). -/
inductive TrendDirection where
  | up | down | stable | insufficient_data
deriving DecidableEq, Repr

/-- The `.value` string of a `TrendDirection` member. -/
def TrendDirection.value : TrendDirection → String
  | .up => "up"
  | .down => "down"
  | .stable => "stable"
  | .insufficient_data => "insufficient_data"

/-- Embeds the `TrendDirection(value)` enum constructor: lookup by value,
`none` when no member has that value (Python raises `ValueError`). -/
def trendDirectionOfValue (s : String) : Option TrendDirection :=
  if s = "up" then some .up
  else if s = "down" then some .down
  else if s = "stable" then some .stable
  else if s = "insufficient_data" then some .insufficient_data
  else none

/-- Embeds enum `TrendSignificance` (executive_models.py lines 29-33). -/
inductive TrendSignificance where
  | significant | normal | insufficient_data
deriving DecidableEq, Repr

/-- The `.value` string of a `TrendSignificance` member. -/
def TrendSignificance.value : TrendSignificance → String
  | .significant => "significant"
  | .normal => "normal"
  | .insufficient_data => "insufficient_data"

/-- Embeds the `TrendSignificance(value)` enum constructor. -/
def trendSignificanceOfValue (s : String) : Option TrendSignificance :=
  if s = "significant" then some .significant
  else if s = "normal" then some .normal
  else if s = "insufficient_data" then some .insufficient_data
  else none

/-- Embeds enum `AlertSeverity` (executive_models.py lines 36-40). -/
inductive AlertSeverity where
  | critical | warning | info
deriving DecidableEq, Repr

/-- The `.value` string of an `AlertSeverity` member. -/
def AlertSeverity.value : AlertSeverity → String
  | .critical => "critical"
  | .warning => "warning"
  | .info => "info"

/-- Embeds the `AlertSeverity(value)` enum constructor. -/
def alertSeverityOfValue (s : String) : Option AlertSeverity :=
  if s = "critical" then some .critical
  else if s = "warning" then some .warning
  else if s = "info" then some .info
  else none

/-- Embeds enum `AlertCategory` (executive_models.py lines 43-49). -/
inductive AlertCategory where
  | productivity | alignment | pattern_change | opportunity | anomaly
deriving DecidableEq, Repr

/-- The `.value` string of an `AlertCategory` member. -/
def AlertCategory.value : AlertCategory → String
  | .productivity => "productivity"
  | .alignment => "alignment"
  | .pattern_change => "pattern_change"
  | .opportunity => "opportunity"
  | .anomaly => "anomaly"

/-- Embeds the `AlertCategory(value)` enum constructor. -/
def alertCategoryOfValue (s : String) : Option AlertCategory :=
  if s = "productivity" then some .productivity
  else if s = "alignment" then some .alignment
  else if s = "pattern_change" then some .pattern_change
  else if s = "opportunity" then some .opportunity
  else if s = "anomaly" then some .anomaly
  else none

/-- Embeds enum `ProgressIndicator` (executive_models.py lines 52-57). -/
inductive ProgressIndicator where
  | on_track | at_risk | behind | unknown
deriving DecidableEq, Repr

/-- The `.value` string of a `ProgressIndicator` member. -/
def ProgressIndicator.value : ProgressIndicator → String
  | .on_track => "on_track"
  | .at_risk => "at_risk"
  | .behind => "behind"
  | .unknown => "unknown"

/-- Embeds the `ProgressIndicator(value)` enum constructor. -/
def progressIndicatorOfValue (s : String) : Option ProgressIndicator :=
  if s = "on_track" then some .on_track
  else if s = "at_risk" then some .at_risk
  else if s = "behind" then some .behind
  else if s = "unknown" then some .unknown
  else none

/-- Embeds `calculate_productivity_score` from
`scripts/automation/observers/executive_models.py` (lines 308-340).
Python ints are modelled by `ℤ`, floats by `ℚ` (true division). -/
def calculate_productivity_score (success_signals total_events : ℤ)
    (avg_confidence : ℚ) (active_hours : ℤ) : ℚ :=
  if total_events = 0 then 0
  else
    let success_rate : ℚ := pyMin 1 ((success_signals : ℚ) / ((pyMax 1 total_events : ℤ) : ℚ))
    let confidence_score : ℚ := avg_confidence
    let activity_score : ℚ := pyMin 1 ((active_hours : ℚ) / 8)
    success_rate * 0.4 + confidence_score * 0.3 + activity_score * 0.3

/-- Embeds dataclass `TrendMetric` (executive_models.py lines 110-123). -/
structure TrendMetric where
  metric_name : String
  current_value : ℚ
  previous_value : ℚ
  change_percent : ℚ
  trend_direction : TrendDirection
  significance : TrendSignificance
  z_score : ℚ
  data_points : ℤ
deriving DecidableEq, Repr

/-! ## alert_system.py

An `ExecutiveAlert` produced by the alert generators is represented here by
its `severity` and `category` only: the remaining fields (`alert_id` and
`created_at` are taken from the wall clock by `generate_alert_id()` /
`datetime.now()`, the rest are formatted strings and evidence copies) do
not affect any claim about `generate_alerts`. -/

/-- Severity/category skeleton of an alert produced by `AlertSystem`. -/
structure GeneratedAlert where
  severity : AlertSeverity
  category : AlertCategory
deriving DecidableEq, Repr

/-- Embeds one anomaly dictionary as consumed by
`AlertSystem._create_anomaly_alerts` (alert_system.py lines 295-328);
only the fields that influence the generated alert are retained. -/
structure AnomalyRecord where
  metric_name : String
  severity : String
  z_score : ℚ
deriving DecidableEq, Repr

/-- Class constant `CRITICAL_DROP_THRESHOLD = 0.40` (alert_system.py line 50). -/
def CRITICAL_DROP_THRESHOLD : ℚ := 0.40

/-- Class constant `WARNING_DROP_THRESHOLD = 0.20` (alert_system.py line 51). -/
def WARNING_DROP_THRESHOLD : ℚ := 0.20

/-- Class constant `NEW_PATTERN_CONFIDENCE_THRESHOLD = 0.7` (alert_system.py line 47). -/
def NEW_PATTERN_CONFIDENCE_THRESHOLD : ℚ := 0.7

/-- The configurable thresholds read in `AlertSystem.__init__`
(alert_system.py lines 53-72). -/
structure AlertConfig where
  productivity_threshold : ℚ
  alignment_threshold : ℚ
  max_active_alerts : ℕ
deriving DecidableEq, Repr

/-- The configuration obtained from an empty `config` dict: every
`.get` falls back to its default. -/
def defaultAlertConfig : AlertConfig := ⟨0.15, 0.20, 10⟩

/-- Embeds `AlertSystem._calculate_alert_severity`
(alert_system.py lines 330-361). -/
def calculate_alert_severity (cfg : AlertConfig) (change_percent : ℚ)
    (category : AlertCategory) : AlertSeverity :=
  if change_percent < 0 then
    let magnitude := |change_percent|
    if category = AlertCategory.productivity then
      if magnitude ≥ CRITICAL_DROP_THRESHOLD * 100 then AlertSeverity.critical
      else if magnitude ≥ WARNING_DROP_THRESHOLD * 100 then AlertSeverity.warning
      else AlertSeverity.info
    else if category = AlertCategory.alignment then
      if magnitude ≥ WARNING_DROP_THRESHOLD * 100 then AlertSeverity.critical
      else if magnitude ≥ cfg.alignment_threshold * 100 then AlertSeverity.warning
      else AlertSeverity.info
    else AlertSeverity.info
  else AlertSeverity.info

/-- Embeds `AlertSystem._check_productivity_alerts`
(alert_system.py lines 142-181): one alert per `productivity_score` metric
with a negative change whose computed severity is critical or warning. -/
def check_productivity_alerts (cfg : AlertConfig)
    (trend_metrics : List TrendMetric) : List GeneratedAlert :=
  trend_metrics.filterMap fun metric =>
    if metric.metric_name = "productivity_score" ∧ metric.change_percent < 0 then
      let severity := calculate_alert_severity cfg metric.change_percent
        AlertCategory.productivity
      if severity = AlertSeverity.critical ∨ severity = AlertSeverity.warning then
        some ⟨severity, AlertCategory.productivity⟩
      else none
    else none

/-- Embeds `AlertSystem._check_alignment_alerts`
(alert_system.py lines 183-221): one alert per `strategic_alignment`
metric whose change is below `-alignment_threshold*100`; unlike the
productivity check, the alert is emitted whatever severity comes back. -/
def check_alignment_alerts (cfg : AlertConfig)
    (trend_metrics : List TrendMetric) : List GeneratedAlert :=
  trend_metrics.filterMap fun metric =>
    if metric.metric_name = "strategic_alignment" ∧
        metric.change_percent < -(cfg.alignment_threshold * 100) then
      some ⟨calculate_alert_severity cfg metric.change_percent
        AlertCategory.alignment, AlertCategory.alignment⟩
    else none

/-- Embeds `AlertSystem._check_pattern_alerts` (alert_system.py lines
223-260): an INFO alert per command sequence with confidence ≥ 0.7 and
occurrence count in `[3, 10]`. -/
def check_pattern_alerts (pattern_report : PatternReport) : List GeneratedAlert :=
  pattern_report.command_sequences.filterMap fun seq =>
    if NEW_PATTERN_CONFIDENCE_THRESHOLD ≤ seq.confidence ∧
        3 ≤ seq.occurrence_count ∧ seq.occurrence_count ≤ 10 then
      some ⟨AlertSeverity.info, AlertCategory.pattern_change⟩
    else none

/-- Embeds `AlertSystem._check_opportunity_alerts` (alert_system.py lines
262-293): an INFO alert per metric with `change_percent > 20`. -/
def check_opportunity_alerts (trend_metrics : List TrendMetric) : List GeneratedAlert :=
  trend_metrics.filterMap fun metric =>
    if metric.change_percent > 20 then
      some ⟨AlertSeverity.info, AlertCategory.opportunity⟩
    else none

/-- Embeds `AlertSystem._create_anomaly_alerts` (alert_system.py lines
295-328): anomalies map 1:1 to alerts, CRITICAL when the anomaly's
severity string is `"critical"`, else WARNING. -/
def create_anomaly_alerts (anomalies : List AnomalyRecord) : List GeneratedAlert :=
  anomalies.map fun a =>
    ⟨if a.severity = "critical" then AlertSeverity.critical else AlertSeverity.warning,
     AlertCategory.anomaly⟩

/-- The `severity_order` dict of `generate_alerts`
(alert_system.py lines 131-135). -/
def severity_order : AlertSeverity → ℕ
  | .critical => 0
  | .warning => 1
  | .info => 2

/-- The local `alerts` list of `generate_alerts` before cap enforcement:
the five generators concatenated in source order
(alert_system.py lines 105-126). -/
def uncapped_alerts (cfg : AlertConfig) (trend_metrics : List TrendMetric)
    (anomalies : List AnomalyRecord)
    (pattern_report : Option PatternReport) : List GeneratedAlert :=
  check_productivity_alerts cfg trend_metrics ++
  check_alignment_alerts cfg trend_metrics ++
  (match pattern_report with
   | some r => check_pattern_alerts r
   | none => []) ++
  check_opportunity_alerts trend_metrics ++
  create_anomaly_alerts anomalies

/-- Embeds `AlertSystem.generate_alerts` (alert_system.py lines 80-140):
concatenate the five generators in source order, then — only when the
count exceeds `max_active_alerts` — stable-sort by severity rank and
truncate (lines 128-137). -/
def generate_alerts (cfg : AlertConfig) (trend_metrics : List TrendMetric)
    (anomalies : List AnomalyRecord)
    (pattern_report : Option PatternReport) : List GeneratedAlert :=
  let alerts := uncapped_alerts cfg trend_metrics anomalies pattern_report
  if cfg.max_active_alerts < alerts.length then
    (pySort (fun a b => Nat.ble (severity_order a.severity) (severity_order b.severity))
      alerts).take cfg.max_active_alerts
  else alerts

/-! ## Theorems for claim C3 -/

/-- C3 counterexample: a `strategic_alignment` drop of 30% (strictly
between 20% and 40%) produces an alert with severity CRITICAL, not the
WARNING the claim requires, because `_calculate_alert_severity` escalates
every alignment drop of magnitude ≥ `WARNING_DROP_THRESHOLD*100 = 20` to
CRITICAL ("Alignment drops are critical"). -/
theorem c3_counterexample :
    (check_alignment_alerts defaultAlertConfig
        [⟨"strategic_alignment", 7/10, 1, -30, TrendDirection.down,
          TrendSignificance.significant, 0, 1⟩]).map (·.severity) =
      [AlertSeverity.critical] ∧
    AlertSeverity.critical ≠ AlertSeverity.warning ∧
    ((20 : ℚ) < 30 ∧ (30 : ℚ) < 40) := by
  refine ⟨?_, by decide, by norm_num, by norm_num⟩
  norm_num [check_alignment_alerts, calculate_alert_severity, defaultAlertConfig,
    WARNING_DROP_THRESHOLD, CRITICAL_DROP_THRESHOLD, List.filterMap, abs_of_neg]
  intro h
  exact absurd h (by decide)

/-- C3 amended: under the default configuration, every
`strategic_alignment` metric whose `change_percent` is below `-20`
(the alignment threshold 0.20 × 100) yields exactly one alignment alert,
and its severity is always CRITICAL (which in particular is ranked at
least as severe as WARNING); the claimed WARNING tier for drops between
20% and 40% is unreachable under the defaults. -/
theorem c3_amended (m : TrendMetric)
    (hname : m.metric_name = "strategic_alignment")
    (hdrop : m.change_percent < -20) :
    check_alignment_alerts defaultAlertConfig [m] =
      [⟨AlertSeverity.critical, AlertCategory.alignment⟩] ∧
    severity_order AlertSeverity.critical ≤ severity_order AlertSeverity.warning ∧
    defaultAlertConfig.alignment_threshold * 100 = 20 := by
  have hth : defaultAlertConfig.alignment_threshold * 100 = 20 := by
    norm_num [defaultAlertConfig]
  have hneg : m.change_percent < 0 := lt_trans hdrop (by norm_num)
  have habs : |m.change_percent| = -m.change_percent := abs_of_neg hneg
  have hmag : |m.change_percent| ≥ WARNING_DROP_THRESHOLD * 100 := by
    rw [habs, WARNING_DROP_THRESHOLD]
    linarith
  refine ⟨?_, by decide, hth⟩
  simp only [check_alignment_alerts, List.filterMap, hname, hth,
    calculate_alert_severity]
  rw [if_pos ⟨trivial, by linarith⟩]
  simp [hneg, hmag]

/-- Closed witness for `c3_amended` at a concrete metric. -/
theorem c3_witness :
    check_alignment_alerts defaultAlertConfig
      [⟨"strategic_alignment", 1/2, 1, -50, TrendDirection.down,
        TrendSignificance.significant, 0, 1⟩] =
      [⟨AlertSeverity.critical, AlertCategory.alignment⟩] ∧
    severity_order AlertSeverity.critical ≤ severity_order AlertSeverity.warning ∧
    defaultAlertConfig.alignment_threshold * 100 = 20 :=
  c3_amended ⟨"strategic_alignment", 1/2, 1, -50, TrendDirection.down,
    TrendSignificance.significant, 0, 1⟩ rfl (by norm_num)

/-! ## Theorems for claim C5 -/

/-- An opportunity-triggering trend metric (+25% change) for the C5 instances. -/
def oppMetric : TrendMetric :=
  ⟨"pattern_diversity", 1, 0, 25, TrendDirection.up, TrendSignificance.significant, 0, 1⟩

/-- A critical anomaly record for the C5 instances. -/
def critAnomaly : AnomalyRecord := ⟨"productivity_score", "critical", 3⟩

/-- C5 counterexample: the claim says the returned list is always ranked
CRITICAL > WARNING > INFO, but `generate_alerts` only sorts when more than
`max_active_alerts` alerts were generated. With one opportunity metric and
one critical anomaly, the two generated alerts stay in generator order:
the INFO opportunity alert precedes the CRITICAL anomaly alert. -/
theorem c5_counterexample :
    (generate_alerts defaultAlertConfig [oppMetric] [critAnomaly] none).map (·.severity) =
      [AlertSeverity.info, AlertSeverity.critical] ∧
    severity_order AlertSeverity.critical < severity_order AlertSeverity.info := by
  refine ⟨?_, by decide⟩
  have hu : uncapped_alerts defaultAlertConfig [oppMetric] [critAnomaly] none =
      [⟨AlertSeverity.info, AlertCategory.opportunity⟩,
       ⟨AlertSeverity.critical, AlertCategory.anomaly⟩] := by
    norm_num [uncapped_alerts, check_productivity_alerts, check_alignment_alerts,
      check_opportunity_alerts, create_anomaly_alerts, calculate_alert_severity,
      defaultAlertConfig, oppMetric, critAnomaly, List.filterMap]
  simp only [generate_alerts, hu]
  rw [if_neg (by decide)]
  decide

/-- C5 amended: (1) the returned list never exceeds `max_active_alerts`;
(2) whenever *more* alerts are generated than the cap, the result is
severity-ranked (CRITICAL > WARNING > INFO by `severity_order`) and has
exactly `max_active_alerts` entries; (3) — correcting the claim — when at
most `max_active_alerts` alerts are generated the list is returned in
generator (insertion) order, unsorted; (4) the concrete 15-alert instance
(5 INFO opportunities + 10 CRITICAL anomalies) returns exactly the 10
CRITICAL alerts, so every CRITICAL entry precedes any INFO entry. -/
theorem c5_amended :
    (∀ (cfg : AlertConfig) (tms : List TrendMetric) (ans : List AnomalyRecord)
        (pr : Option PatternReport),
      (generate_alerts cfg tms ans pr).length ≤ cfg.max_active_alerts) ∧
    (∀ (cfg : AlertConfig) (tms : List TrendMetric) (ans : List AnomalyRecord)
        (pr : Option PatternReport),
      cfg.max_active_alerts < (uncapped_alerts cfg tms ans pr).length →
        (generate_alerts cfg tms ans pr).Pairwise
          (fun a b => severity_order a.severity ≤ severity_order b.severity) ∧
        (generate_alerts cfg tms ans pr).length = cfg.max_active_alerts) ∧
    (∀ (cfg : AlertConfig) (tms : List TrendMetric) (ans : List AnomalyRecord)
        (pr : Option PatternReport),
      (uncapped_alerts cfg tms ans pr).length ≤ cfg.max_active_alerts →
        generate_alerts cfg tms ans pr = uncapped_alerts cfg tms ans pr) ∧
    ((uncapped_alerts defaultAlertConfig
        [oppMetric, oppMetric, oppMetric, oppMetric, oppMetric]
        [critAnomaly, critAnomaly, critAnomaly, critAnomaly, critAnomaly,
         critAnomaly, critAnomaly, critAnomaly, critAnomaly, critAnomaly]
        none).length = 15 ∧
      generate_alerts defaultAlertConfig
        [oppMetric, oppMetric, oppMetric, oppMetric, oppMetric]
        [critAnomaly, critAnomaly, critAnomaly, critAnomaly, critAnomaly,
         critAnomaly, critAnomaly, critAnomaly, critAnomaly, critAnomaly]
        none =
        List.replicate 10 ⟨AlertSeverity.critical, AlertCategory.anomaly⟩) := by
  have htot : ∀ a b : GeneratedAlert,
      Nat.ble (severity_order a.severity) (severity_order b.severity) = true ∨
      Nat.ble (severity_order b.severity) (severity_order a.severity) = true := by
    intro a b
    rcases Nat.le_total (severity_order a.severity) (severity_order b.severity) with h | h
    · exact Or.inl (Nat.ble_eq.mpr h)
    · exact Or.inr (Nat.ble_eq.mpr h)
  have htrans : ∀ a b c : GeneratedAlert,
      Nat.ble (severity_order a.severity) (severity_order b.severity) = true →
      Nat.ble (severity_order b.severity) (severity_order c.severity) = true →
      Nat.ble (severity_order a.severity) (severity_order c.severity) = true := by
    intro a b c hab hbc
    exact Nat.ble_eq.mpr (le_trans (Nat.ble_eq.mp hab) (Nat.ble_eq.mp hbc))
  refine ⟨?_, ?_, ?_, ?_⟩
  · intro cfg tms ans pr
    simp only [generate_alerts]
    split
    · rw [List.length_take, length_pySort]
      exact min_le_left _ _
    · rename_i h
      exact Nat.le_of_not_lt h
  · intro cfg tms ans pr h
    constructor
    · simp only [generate_alerts]
      rw [if_pos h]
      have hs := pairwise_pySort
        (fun a b => Nat.ble (severity_order a.severity) (severity_order b.severity))
        htot htrans (uncapped_alerts cfg tms ans pr)
      have hsub := List.Pairwise.sublist
        (List.take_sublist cfg.max_active_alerts _) hs
      exact hsub.imp fun hb => Nat.ble_eq.mp hb
    · simp only [generate_alerts]
      rw [if_pos h, List.length_take, length_pySort]
      exact Nat.min_eq_left (le_of_lt h)
  · intro cfg tms ans pr h
    simp only [generate_alerts]
    rw [if_neg (Nat.not_lt.mpr h)]
  · have hu : uncapped_alerts defaultAlertConfig
        [oppMetric, oppMetric, oppMetric, oppMetric, oppMetric]
        [critAnomaly, critAnomaly, critAnomaly, critAnomaly, critAnomaly,
         critAnomaly, critAnomaly, critAnomaly, critAnomaly, critAnomaly]
        none =
        [⟨AlertSeverity.info, AlertCategory.opportunity⟩,
         ⟨AlertSeverity.info, AlertCategory.opportunity⟩,
         ⟨AlertSeverity.info, AlertCategory.opportunity⟩,
         ⟨AlertSeverity.info, AlertCategory.opportunity⟩,
         ⟨AlertSeverity.info, AlertCategory.opportunity⟩,
         ⟨AlertSeverity.critical, AlertCategory.anomaly⟩,
         ⟨AlertSeverity.critical, AlertCategory.anomaly⟩,
         ⟨AlertSeverity.critical, AlertCategory.anomaly⟩,
         ⟨AlertSeverity.critical, AlertCategory.anomaly⟩,
         ⟨AlertSeverity.critical, AlertCategory.anomaly⟩,
         ⟨AlertSeverity.critical, AlertCategory.anomaly⟩,
         ⟨AlertSeverity.critical, AlertCategory.anomaly⟩,
         ⟨AlertSeverity.critical, AlertCategory.anomaly⟩,
         ⟨AlertSeverity.critical, AlertCategory.anomaly⟩,
         ⟨AlertSeverity.critical, AlertCategory.anomaly⟩] := by
      norm_num [uncapped_alerts, check_productivity_alerts, check_alignment_alerts,
        check_opportunity_alerts, create_anomaly_alerts, calculate_alert_severity,
        defaultAlertConfig, oppMetric, critAnomaly, List.filterMap]
    refine ⟨by rw [hu]; decide, ?_⟩
    simp only [generate_alerts, hu]
    rw [if_pos (by decide)]
    decide

/-- Closed witness for `c5_amended`, applying the under-cap clause at empty
inputs. -/
theorem c5_witness :
    (uncapped_alerts defaultAlertConfig [] [] none).length ≤
      defaultAlertConfig.max_active_alerts ∧
    generate_alerts defaultAlertConfig [] [] none =
      uncapped_alerts defaultAlertConfig [] [] none :=
  ⟨by decide, c5_amended.2.2.1 defaultAlertConfig [] [] none (by decide)⟩

/-! ## pattern_store.py -/

/-- One row of the `pattern_history` table (`SCHEMA_SQL`, pattern_store.py
lines 48-63). The `id` autoincrement column and the `first_seen` /
`last_seen` timestamp columns (set from `CURRENT_TIMESTAMP`) do not
participate in any claim and are omitted; the table is modelled as the
list of its rows in insertion order. -/
structure PatternRow where
  pattern_type : String
  pattern_key : String
  pattern_data : String
  confidence : ℚ
  occurrence_count : ℕ
deriving DecidableEq, Repr

/-- The update applied by the `UPDATE pattern_history SET pattern_data=?,
confidence=?, occurrence_count = occurrence_count + 1 WHERE pattern_key=?`
statement of `_upsert_pattern` to one matching row. -/
def updateRow (pdata : String) (confidence : ℚ) (r : PatternRow) : PatternRow :=
  { r with pattern_data := pdata, confidence := confidence,
           occurrence_count := r.occurrence_count + 1 }

/-- Embeds `PatternStore._upsert_pattern` (pattern_store.py lines 300-341):
the `UPDATE ... WHERE pattern_key = ?` touches every row with that key and
reports `cursor.rowcount`; when it is `0`, a fresh row is inserted with
`occurrence_count = 1`. -/
def upsert_pattern (tbl : List PatternRow) (ptype pkey pdata : String)
    (confidence : ℚ) : List PatternRow :=
  if tbl.any (fun r => r.pattern_key == pkey) then
    tbl.map fun r => if r.pattern_key == pkey then updateRow pdata confidence r else r
  else tbl ++ [⟨ptype, pkey, pdata, confidence, 1⟩]

/-- The rows of `tbl` whose `pattern_key` equals `pkey`. -/
def keyRows (pkey : String) (tbl : List PatternRow) : List PatternRow :=
  tbl.filter fun r => r.pattern_key == pkey

/-- Key uniqueness: no two rows of the table share a `pattern_key`
(enforced in the schema by `CREATE UNIQUE INDEX idx_pattern_key`). -/
def UniqueKeys (tbl : List PatternRow) : Prop :=
  tbl.Pairwise fun r s => r.pattern_key ≠ s.pattern_key

/-- Tables reachable from the freshly created (empty) `pattern_history`
table by any sequence of `_upsert_pattern` calls. -/
inductive ReachableTable : List PatternRow → Prop where
  | empty : ReachableTable []
  | step (tbl : List PatternRow) (ptype pkey pdata : String) (confidence : ℚ) :
      ReachableTable tbl →
      ReachableTable (upsert_pattern tbl ptype pkey pdata confidence)

theorem uniqueKeys_upsert (tbl : List PatternRow) (ptype pkey pdata : String)
    (conf : ℚ) (h : UniqueKeys tbl) :
    UniqueKeys (upsert_pattern tbl ptype pkey pdata conf) := by
  unfold upsert_pattern
  split
  · rename_i hany
    rw [UniqueKeys, List.pairwise_map]
    refine h.imp ?_
    intro a b hab
    by_cases ha : a.pattern_key == pkey <;> by_cases hb : b.pattern_key == pkey <;>
      simp [ha, hb, updateRow] <;> exact hab
  · rename_i hany
    have hnone : ∀ r ∈ tbl, r.pattern_key ≠ pkey := by
      intro r hr hkey
      exact hany (List.any_eq_true.mpr ⟨r, hr, by simp [hkey]⟩)
    rw [UniqueKeys, List.pairwise_append]
    refine ⟨h, by simp, ?_⟩
    intro a ha b hb
    simp only [List.mem_singleton] at hb
    subst hb
    exact hnone a ha

theorem uniqueKeys_of_reachable (tbl : List PatternRow)
    (h : ReachableTable tbl) : UniqueKeys tbl := by
  induction h with
  | empty => exact List.Pairwise.nil
  | step tbl ptype pkey pdata conf _ ih => exact uniqueKeys_upsert _ _ _ _ _ ih

theorem keyRows_length_le_one (pkey : String) (tbl : List PatternRow)
    (h : UniqueKeys tbl) : (keyRows pkey tbl).length ≤ 1 := by
  induction tbl with
  | nil => simp [keyRows]
  | cons r rs ih =>
    rcases List.pairwise_cons.mp h with ⟨hr, hrs⟩
    by_cases hk : (r.pattern_key == pkey) = true
    · have hkey : r.pattern_key = pkey := by simpa using hk
      have hempty : List.filter (fun s => s.pattern_key == pkey) rs = [] := by
        rw [List.filter_eq_nil_iff]
        intro s hs
        have hne := hr s hs
        simp only [beq_iff_eq]
        rw [← hkey]
        exact fun hc => hne hc.symm
      rw [keyRows, List.filter_cons, if_pos hk, hempty]
      simp
    · rw [keyRows, List.filter_cons, if_neg hk]
      exact ih hrs

/-! ## Theorems for claim C7 -/

/-- C7: for every table reachable through `_upsert_pattern` from the empty
table, (i) keys are unique and every key has at most one row, before and
after a further upsert; (ii) upserting a key present in exactly one row
`r` replaces it by `r` with `occurrence_count` incremented by exactly 1
(and the new data/confidence), without changing the number of rows;
(iii) upserting an absent key appends exactly one row with
`occurrence_count = 1`. -/
theorem c7_upsert (tbl : List PatternRow) (ptype pkey pdata : String) (conf : ℚ)
    (hreach : ReachableTable tbl) :
    (UniqueKeys tbl ∧ UniqueKeys (upsert_pattern tbl ptype pkey pdata conf)) ∧
    (∀ k, (keyRows k tbl).length ≤ 1 ∧
      (keyRows k (upsert_pattern tbl ptype pkey pdata conf)).length ≤ 1) ∧
    (∀ r, keyRows pkey tbl = [r] →
      keyRows pkey (upsert_pattern tbl ptype pkey pdata conf) =
        [updateRow pdata conf r] ∧
      (upsert_pattern tbl ptype pkey pdata conf).length = tbl.length) ∧
    (keyRows pkey tbl = [] →
      keyRows pkey (upsert_pattern tbl ptype pkey pdata conf) =
        [⟨ptype, pkey, pdata, conf, 1⟩] ∧
      (upsert_pattern tbl ptype pkey pdata conf).length = tbl.length + 1) := by
  have huniq : UniqueKeys tbl := uniqueKeys_of_reachable tbl hreach
  have huniq2 : UniqueKeys (upsert_pattern tbl ptype pkey pdata conf) :=
    uniqueKeys_upsert tbl ptype pkey pdata conf huniq
  refine ⟨⟨huniq, huniq2⟩, ?_, ?_, ?_⟩
  · intro k
    exact ⟨keyRows_length_le_one k tbl huniq,
      keyRows_length_le_one k _ huniq2⟩
  · intro r hr
    have hmem : r ∈ List.filter (fun s => s.pattern_key == pkey) tbl := by
      rw [show List.filter (fun s => s.pattern_key == pkey) tbl = [r] from hr]
      exact List.mem_singleton_self r
    have hrmem : r ∈ tbl := (List.mem_filter.mp hmem).1
    have hrkey : (r.pattern_key == pkey) = true := (List.mem_filter.mp hmem).2
    have hany : tbl.any (fun s => s.pattern_key == pkey) = true :=
      List.any_eq_true.mpr ⟨r, hrmem, hrkey⟩
    constructor
    · rw [upsert_pattern, if_pos hany, keyRows, List.filter_map]
      have hcomp : ∀ s : PatternRow,
          ((if s.pattern_key == pkey then updateRow pdata conf s
            else s).pattern_key == pkey) = (s.pattern_key == pkey) := by
        intro s
        by_cases hs : (s.pattern_key == pkey) = true <;> simp [hs, updateRow]
      simp only [Function.comp_def]
      rw [List.filter_congr (fun s _ => hcomp s),
        show List.filter (fun s => s.pattern_key == pkey) tbl = [r] from hr]
      simp only [List.map_cons, List.map_nil, if_pos hrkey]
    · rw [upsert_pattern, if_pos hany, List.length_map]
  · intro hnone
    have hany : tbl.any (fun s => s.pattern_key == pkey) = false := by
      rw [List.any_eq_false]
      intro s hs
      have := List.filter_eq_nil_iff.mp hnone s hs
      simpa using this
    rw [upsert_pattern, if_neg (by simp [hany]), keyRows, List.filter_append]
    constructor
    · rw [show List.filter (fun s => s.pattern_key == pkey) tbl = [] from hnone]
      simp
    · simp

/-- Closed witness for `c7_upsert`: the empty table is reachable, and
upserting into it inserts one row with `occurrence_count = 1`. -/
theorem c7_witness :
    keyRows "a→b" (upsert_pattern [] "command_sequence" "a→b" "d" (1/2)) =
      [⟨"command_sequence", "a→b", "d", 1/2, 1⟩] ∧
    (upsert_pattern [] "command_sequence" "a→b" "d" (1/2)).length =
      ([] : List PatternRow).length + 1 :=
  (c7_upsert [] "command_sequence" "a→b" "d" (1/2) ReachableTable.empty).2.2.2 rfl

/-! ## executive_models.py — dates and `GoalCorrelation` -/

/-- A Python `datetime.date` value (year, month, day). -/
structure PyDate where
  year : ℕ
  month : ℕ
  day : ℕ
deriving DecidableEq, Repr

/-- A Python `datetime.datetime` value. -/
structure PyDateTime where
  year : ℕ
  month : ℕ
  day : ℕ
  hour : ℕ
  minute : ℕ
  second : ℕ
  microsecond : ℕ
deriving DecidableEq, Repr

/-- Embeds dataclass `GoalCorrelation` (executive_models.py lines 202-215). -/
structure GoalCorrelation where
  okr_id : String
  okr_title : String
  aligned_patterns : List String
  alignment_score : ℚ
  progress_indicator : ProgressIndicator
  recommendations : List String
  evidence_count : ℕ
  last_activity : Option PyDateTime
deriving DecidableEq, Repr

/-! ## goal_recommender.py -/

/-- Python's `needle in haystack` substring test on strings: the needle's
character list is a contiguous infix of the haystack's. -/
def pyIn (needle haystack : String) : Bool :=
  decide (needle.toList <:+: haystack.toList)

/-- Python `command.lstrip("/")`: strip all leading slashes. -/
def lstripSlash (s : String) : String := ⟨s.toList.dropWhile (· == '/')⟩

/-- One OKR definition as consumed by `correlate_patterns_to_goals`: the
relevant entries of a `DEFAULT_OKRS`-shaped dict (goal_recommender.py
lines 40-65; `load_okrs` produces the same shape). -/
structure Okr where
  title : String
  keywords : List String
  file_patterns : List String
  commands : List String
deriving DecidableEq, Repr

/-- The configuration read in `GoalAwareRecommender.__init__`
(goal_recommender.py lines 80-83). -/
structure GoalConfig where
  min_alignment_score : ℚ
  max_correlations_per_okr : ℕ
deriving DecidableEq, Repr

/-- Defaults: `min_alignment_score = 0.3`, `max_correlations_per_okr = 3`. -/
def defaultGoalConfig : GoalConfig := ⟨0.3, 3⟩

/-- The file-path loop of `correlate_patterns_to_goals`
(goal_recommender.py lines 224-229): per observed file path, the first
matching `file_patterns` entry appends `("file:"+path, 0.3)` and breaks. -/
def fileMatches (okr : Okr) (file_paths : List String) : List (String × ℚ) :=
  file_paths.filterMap fun fp =>
    if okr.file_patterns.any (fun pat => pyIn pat fp) then
      some ("file:" ++ fp, 0.3)
    else none

/-- The command loop of `correlate_patterns_to_goals`
(goal_recommender.py lines 232-238): per command (with leading slashes
stripped), the first matching `commands` entry appends
`("cmd:"+clean, 0.2)` and breaks. -/
def commandMatches (okr : Okr) (commands : List String) : List (String × ℚ) :=
  commands.filterMap fun command =>
    let command_clean := lstripSlash command
    if okr.commands.any (fun pat => pyIn pat command_clean) then
      some ("cmd:" ++ command_clean, 0.2)
    else none

/-- The keyword loop of `correlate_patterns_to_goals`
(goal_recommender.py lines 241-247): per keyword, the inner loop breaks at
the first file path containing it (case-insensitively); the pair
`("kw:"+keyword, 0.1)` is appended only when `"kw:"+keyword` is not
already among the aligned patterns. -/
def keywordStep (file_paths : List String) :
    List String → List String → List ℚ → List String × List ℚ
  | [], aligned, factors => (aligned, factors)
  | kw :: kws, aligned, factors =>
    if file_paths.any (fun fp => pyIn kw.toLower fp.toLower) then
      if ("kw:" ++ kw) ∈ aligned then keywordStep file_paths kws aligned factors
      else keywordStep file_paths kws (aligned ++ ["kw:" ++ kw]) (factors ++ [0.1])
    else keywordStep file_paths kws aligned factors

/-- Embeds `GoalAwareRecommender._determine_progress_indicator`
(goal_recommender.py lines 292-317); the `pattern_count` and
`pattern_report` parameters are accepted but unused, as in the source. -/
def determine_progress_indicator (alignment_score : ℚ) (_pattern_count : ℕ)
    (_pattern_report : PatternReport) : ProgressIndicator :=
  if 0.7 ≤ alignment_score then ProgressIndicator.on_track
  else if 0.4 ≤ alignment_score then ProgressIndicator.at_risk
  else ProgressIndicator.behind

/-- Embeds `GoalAwareRecommender._generate_goal_recommendations`
(goal_recommender.py lines 319-373). -/
def generate_goal_recommendations (okr : Okr) (aligned_patterns : List String)
    (alignment_score : ℚ) : List String :=
  let recs : List String :=
    (if alignment_score < 0.4 then
      ["Low alignment with \x27" ++ okr.title ++
        "\x27 - consider prioritizing related work"]
     else []) ++
    (if "dependency" ∈ okr.keywords then
      ["Focus on dependency management work to improve alignment"]
     else []) ++
    (if "ai" ∈ okr.keywords then
      ["Increase AI/automation work to improve alignment"]
     else []) ++
    (if "outcome" ∈ okr.keywords then
      ["Ensure work connects to measurable outcomes"]
     else []) ++
    (match aligned_patterns with
     | [] => []
     | top_pattern :: _ =>
       if top_pattern.startsWith "file:" then
         ["Continue work in: " ++ top_pattern.drop 5]
       else if top_pattern.startsWith "cmd:" then
         ["Leverage workflow: " ++ top_pattern.drop 4]
       else [])
  recs.take 3

/-- The per-OKR body of the `for okr_id, okr in okrs.items()` loop of
`correlate_patterns_to_goals` (goal_recommender.py lines 219-284):
factors are gathered in source order (files, commands, keywords), the
score is `min(1, sum)` when any factor matched and `0.0` otherwise, and a
`GoalCorrelation` is produced only when the score reaches
`min_alignment_score`. `datetime.now()` is passed in as `now`. -/
def correlate_okr (cfg : GoalConfig) (okr_id : String) (okr : Okr)
    (file_paths commands : List String) (now : PyDateTime)
    (pattern_report : PatternReport) : Option GoalCorrelation :=
  let fm := fileMatches okr file_paths
  let cm := commandMatches okr commands
  let kwres := keywordStep file_paths okr.keywords
    (fm.map (·.1) ++ cm.map (·.1)) (fm.map (·.2) ++ cm.map (·.2))
  let aligned_patterns := kwres.1
  let alignment_factors := kwres.2
  let alignment_score : ℚ :=
    if alignment_factors = [] then 0 else pyMin 1 alignment_factors.sum
  if cfg.min_alignment_score ≤ alignment_score then
    some
      { okr_id := okr_id
        okr_title := okr.title
        aligned_patterns := aligned_patterns.take cfg.max_correlations_per_okr
        alignment_score := alignment_score
        progress_indicator := determine_progress_indicator alignment_score
          aligned_patterns.length pattern_report
        recommendations := generate_goal_recommendations okr aligned_patterns
          alignment_score
        evidence_count := aligned_patterns.length
        last_activity := some now }
  else none

/-- Embeds `GoalAwareRecommender.correlate_patterns_to_goals`
(goal_recommender.py lines 179-290): file paths and commands are gathered
from the report's clusters and sequences, each OKR is scored, and the
results are sorted by alignment score descending (CPython's stable sort).
The `recent_analysis` argument only initialises a local that is
overwritten before use in every loop iteration and is omitted. -/
def correlate_patterns_to_goals (cfg : GoalConfig) (okrs : List (String × Okr))
    (pattern_report : PatternReport) (now : PyDateTime) : List GoalCorrelation :=
  let file_paths := pattern_report.file_clusters.flatMap (·.files)
  let commands := pattern_report.command_sequences.flatMap (·.sequence)
  let correlations := okrs.filterMap fun p =>
    correlate_okr cfg p.1 p.2 file_paths commands now pattern_report
  pySort (fun a b => decide (b.alignment_score ≤ a.alignment_score)) correlations

/-! ## Theorems for claim C8 -/

theorem fileMatches_snd (okr : Okr) (fps : List String) :
    ∀ p ∈ fileMatches okr fps, p.2 = 0.3 := by
  intro p hp
  simp only [fileMatches, List.mem_filterMap] at hp
  obtain ⟨fp, _, hif⟩ := hp
  split at hif
  · cases hif
    rfl
  · cases hif

theorem commandMatches_snd (okr : Okr) (cmds : List String) :
    ∀ p ∈ commandMatches okr cmds, p.2 = 0.2 := by
  intro p hp
  simp only [commandMatches, List.mem_filterMap] at hp
  obtain ⟨c, _, hif⟩ := hp
  split at hif
  · cases hif
    rfl
  · cases hif

theorem keywordStep_factors_nonneg (file_paths : List String) :
    ∀ (kws aligned : List String) (factors : List ℚ),
      (∀ q ∈ factors, 0 ≤ q) →
      ∀ q ∈ (keywordStep file_paths kws aligned factors).2, 0 ≤ q := by
  intro kws
  induction kws with
  | nil =>
    intro aligned factors h q hq
    exact h q hq
  | cons kw kws ih =>
    intro aligned factors h q hq
    simp only [keywordStep] at hq
    split at hq
    · split at hq
      · exact ih _ _ h q hq
      · refine ih _ _ ?_ q hq
        intro x hx
        rcases List.mem_append.mp hx with hx | hx
        · exact h x hx
        · simp only [List.mem_singleton] at hx
          subst hx
          norm_num
    · exact ih _ _ h q hq

/-- C8: every `GoalCorrelation` produced by `correlate_patterns_to_goals`
has an `alignment_score` in `[0,1]`: the factors are drawn from
`{0.3, 0.2, 0.1}`, their sum is capped by `min(1, ·)` and is never
negative, no matter how many factors matched. -/
theorem c8_alignment_score_bounds (cfg : GoalConfig) (okrs : List (String × Okr))
    (report : PatternReport) (now : PyDateTime) (gc : GoalCorrelation)
    (hmem : gc ∈ correlate_patterns_to_goals cfg okrs report now) :
    0 ≤ gc.alignment_score ∧ gc.alignment_score ≤ 1 := by
  rw [correlate_patterns_to_goals, mem_pySort, List.mem_filterMap] at hmem
  obtain ⟨p, _, hp⟩ := hmem
  rw [correlate_okr] at hp
  set fps := report.file_clusters.flatMap (·.files) with hfps
  set cmds := report.command_sequences.flatMap (·.sequence) with hcmds
  set fm := fileMatches p.2 fps with hfm
  set cm := commandMatches p.2 cmds with hcm
  set kwres := keywordStep fps p.2.keywords
    (fm.map (·.1) ++ cm.map (·.1)) (fm.map (·.2) ++ cm.map (·.2)) with hkw
  have hstart : ∀ q ∈ fm.map (·.2) ++ cm.map (·.2), (0 : ℚ) ≤ q := by
    intro q hq
    rcases List.mem_append.mp hq with hq | hq
    · obtain ⟨x, hx, hxq⟩ := List.mem_map.mp hq
      rw [← hxq, fileMatches_snd p.2 fps x hx]
      norm_num
    · obtain ⟨x, hx, hxq⟩ := List.mem_map.mp hq
      rw [← hxq, commandMatches_snd p.2 cmds x hx]
      norm_num
  have hfac : ∀ q ∈ kwres.2, (0 : ℚ) ≤ q :=
    keywordStep_factors_nonneg fps p.2.keywords _ _ hstart
  have hsum : (0 : ℚ) ≤ kwres.2.sum := List.sum_nonneg hfac
  by_cases hnil : kwres.2 = []
  · rw [if_pos hnil] at hp
    split at hp
    · cases hp
      norm_num
    · cases hp
  · rw [if_neg hnil] at hp
    split at hp
    · cases hp
      constructor
      · show (0 : ℚ) ≤ pyMin 1 kwres.2.sum
        rw [pyMin_eq_min]
        exact le_min (by norm_num) hsum
      · show pyMin 1 kwres.2.sum ≤ (1 : ℚ)
        rw [pyMin_eq_min]
        exact min_le_left _ _
    · cases hp

/-- Closed witness for `c8_alignment_score_bounds` at a concrete report. -/
theorem c8_witness :
    (⟨"obj1", "T", [], 0, ProgressIndicator.behind,
        ["Low alignment with \x27" ++ "T" ++
          "\x27 - consider prioritizing related work"],
        0, some ⟨2026, 1, 1, 0, 0, 0, 0⟩⟩ : GoalCorrelation) ∈
      correlate_patterns_to_goals ⟨0, 3⟩ [("obj1", ⟨"T", [], [], []⟩)]
        (PatternReport.mk [] [] none [] "t" 0) ⟨2026, 1, 1, 0, 0, 0, 0⟩ ∧
    (0 ≤ (0 : ℚ) ∧ (0 : ℚ) ≤ 1) := by
  have hmem : (⟨"obj1", "T", [], 0, ProgressIndicator.behind,
      ["Low alignment with \x27" ++ "T" ++
        "\x27 - consider prioritizing related work"],
      0, some ⟨2026, 1, 1, 0, 0, 0, 0⟩⟩ : GoalCorrelation) ∈
      correlate_patterns_to_goals ⟨0, 3⟩ [("obj1", ⟨"T", [], [], []⟩)]
        (PatternReport.mk [] [] none [] "t" 0) ⟨2026, 1, 1, 0, 0, 0, 0⟩ := by
    norm_num [correlate_patterns_to_goals, correlate_okr, fileMatches,
      commandMatches, keywordStep, determine_progress_indicator,
      generate_goal_recommendations, pySort, insertLe, List.filterMap,
      List.flatMap]
  exact ⟨hmem, c8_alignment_score_bounds ⟨0, 3⟩ [("obj1", ⟨"T", [], [], []⟩)]
    (PatternReport.mk [] [] none [] "t" 0) ⟨2026, 1, 1, 0, 0, 0, 0⟩ _ hmem⟩

/-! ## executive_models.py — `WeeklySnapshot` -/

/-- Embeds dataclass `WeeklySnapshot` (executive_models.py lines 60-76). -/
structure WeeklySnapshot where
  period_start : PyDate
  period_end : PyDate
  total_events : ℤ
  productivity_score : ℚ
  strategic_alignment_avg : ℚ
  top_patterns : List String
  anomalies_detected : ℤ
  pattern_diversity : ℚ
  success_signal_rate : ℚ
  active_hours : ℤ
deriving DecidableEq, Repr

/-! ## trend_analyzer.py — anomaly detection

`statistics.mean` and `statistics.stdev` produce floats through a square
root, so this part of the embedding lives in `ℝ`. -/

/-- `statistics.mean` of a list of reals. -/
noncomputable def pyMean (l : List ℝ) : ℝ := l.sum / l.length

/-- `statistics.stdev`: the square root of the sample variance
(denominator `n - 1`). CPython raises `StatisticsError` only when the
list has fewer than two entries; for two or more *equal* values it
returns `0.0` — it does not raise, so the `except` branch of
`detect_anomalies` (trend_analyzer.py lines 221-224, `hist_stddev = 0.1`)
is unreachable for the guarded `len ≥ 2` inputs. -/
noncomputable def pyStdev (l : List ℝ) : ℝ :=
  Real.sqrt ((l.map fun x => (x - pyMean l) ^ 2).sum / ((l.length : ℝ) - 1))

/-- Embeds `calculate_z_score` (executive_models.py lines 373-388):
`0.0` when the standard deviation is `0`, else `(value - mean)/std_dev`. -/
noncomputable def calculate_z_score (value mean std_dev : ℝ) : ℝ :=
  if std_dev = 0 then 0 else (value - mean) / std_dev

/-- The snapshot accessor for each tracked metric name: the `if/elif`
chain of `detect_anomalies` (trend_analyzer.py lines 198-211); the final
`else` branch reads `active_hours`. -/
def metricValue : String → WeeklySnapshot → ℚ
  | "productivity_score", s => s.productivity_score
  | "strategic_alignment", s => s.strategic_alignment_avg
  | "pattern_diversity", s => s.pattern_diversity
  | "success_rate", s => s.success_signal_rate
  | _, s => (s.active_hours : ℚ)

/-- One anomaly dictionary produced by `detect_anomalies`
(trend_analyzer.py lines 231-242); the formatted `description` string is
omitted. -/
structure AnomalyResult where
  metric_name : String
  current_value : ℝ
  historical_mean : ℝ
  historical_stddev : ℝ
  z_score : ℝ
  anomaly_type : String
  severity : String

/-- The per-metric body of the `for metric_name, current_value in
metrics_to_check` loop of `detect_anomalies` (trend_analyzer.py lines
198-242): positive historical values only, skip when fewer than two
remain, then flag when `|z| ≥ threshold`, severity `"critical"` when
`|z| ≥ 1.5 × threshold`. -/
noncomputable def checkMetricAnomaly (threshold_stddev : ℝ) (metric_name : String)
    (current_value : ℚ)
    (previous_snapshots : List WeeklySnapshot) : Option AnomalyResult :=
  let historical_values : List ℝ :=
    (((previous_snapshots.map (metricValue metric_name)).filter
      fun v => 0 < v).map fun v => (v : ℝ))
  if historical_values.length < 2 then none
  else
    let hist_mean := pyMean historical_values
    let hist_stddev := pyStdev historical_values
    let z_score := calculate_z_score (current_value : ℝ) hist_mean hist_stddev
    if threshold_stddev ≤ |z_score| then
      some
        { metric_name := metric_name
          current_value := (current_value : ℝ)
          historical_mean := hist_mean
          historical_stddev := hist_stddev
          z_score := z_score
          anomaly_type := if 0 < z_score then "high" else "low"
          severity :=
            if threshold_stddev * 1.5 ≤ |z_score| then "critical" else "warning" }
    else none

/-- Embeds `TrendAnalyzer.detect_anomalies` (trend_analyzer.py lines
160-245). The current snapshot (produced in the source by the
clock/database-dependent `generate_weekly_snapshot`) is taken as an
argument; with fewer than two previous snapshots no anomalies are
returned. -/
noncomputable def detect_anomalies (current_snapshot : WeeklySnapshot)
    (previous_snapshots : List WeeklySnapshot)
    (threshold_stddev : ℝ) : List AnomalyResult :=
  if previous_snapshots.length < 2 then []
  else
    ([("productivity_score", current_snapshot.productivity_score),
      ("strategic_alignment", current_snapshot.strategic_alignment_avg),
      ("pattern_diversity", current_snapshot.pattern_diversity),
      ("success_rate", current_snapshot.success_signal_rate),
      ("active_hours", (current_snapshot.active_hours : ℚ))]).filterMap
      fun p => checkMetricAnomaly threshold_stddev p.1 p.2 previous_snapshots

/-! ## Theorems for claim C1 -/

/-- A snapshot whose every tracked metric equals `v`. -/
def uniformSnapshot (v : ℚ) (h : ℤ) : WeeklySnapshot :=
  ⟨⟨2026, 1, 1⟩, ⟨2026, 1, 7⟩, 0, v, v, [], 0, v, v, h⟩

/-- C1 (code bug evidence): with four historical snapshots whose tracked
metrics are all `10` and a current value of `100`, the sample standard
deviation is exactly `0` (no exception is raised, so the `0.1` floor in
the `except` branch never applies), `calculate_z_score` returns `0`, and
`detect_anomalies` reports *no* anomaly — the spec (and the code's own
`except`-branch intent) require `|z| > 2` and severity `"critical"`. -/
theorem c1_detect_anomalies_empty :
    detect_anomalies (uniformSnapshot 100 100)
      [uniformSnapshot 10 10, uniformSnapshot 10 10,
       uniformSnapshot 10 10, uniformSnapshot 10 10] 2 = [] ∧
    pyStdev [10, 10, 10, 10] = 0 ∧
    calculate_z_score 100 10 0 = 0 ∧
    ¬((2 : ℝ) ≤ |calculate_z_score 100 10 0|) := by
  have hmean : pyMean [10, 10, 10, 10] = 10 := by
    norm_num [pyMean]
  have hstd : pyStdev [10, 10, 10, 10] = 0 := by
    rw [pyStdev, hmean]
    norm_num [Real.sqrt_eq_zero]
  have hz : calculate_z_score 100 10 0 = 0 := by
    rw [calculate_z_score, if_pos rfl]
  refine ⟨?_, hstd, hz, by rw [hz]; norm_num⟩
  rw [detect_anomalies, if_neg (by norm_num)]
  have hcheck : ∀ name : String,
      checkMetricAnomaly 2 name 100
        [uniformSnapshot 10 10, uniformSnapshot 10 10,
         uniformSnapshot 10 10, uniformSnapshot 10 10] = none := by
    intro name
    rw [checkMetricAnomaly]
    have hval : ∀ s : WeeklySnapshot, metricValue name s =
        (if name = "productivity_score" then s.productivity_score
         else if name = "strategic_alignment" then s.strategic_alignment_avg
         else if name = "pattern_diversity" then s.pattern_diversity
         else if name = "success_rate" then s.success_signal_rate
         else (s.active_hours : ℚ)) := by
      intro s
      rw [metricValue.eq_def]
      split <;> simp_all
    have hvals : ((([uniformSnapshot 10 10, uniformSnapshot 10 10,
        uniformSnapshot 10 10, uniformSnapshot 10 10].map
          (metricValue name)).filter fun v => 0 < v).map fun v => ((v : ℝ))) =
        [(10 : ℝ), 10, 10, 10] := by
      simp only [List.map_cons, List.map_nil, hval, uniformSnapshot]
      split <;> norm_num <;> split <;> norm_num <;> split <;> norm_num <;>
        split <;> norm_num
    rw [hvals]
    have hmean10 : pyMean [(10 : ℝ), 10, 10, 10] = 10 := by norm_num [pyMean]
    have hstd10 : pyStdev [(10 : ℝ), 10, 10, 10] = 0 := by
      rw [pyStdev, hmean10]
      norm_num [Real.sqrt_eq_zero]
    rw [if_neg (by norm_num)]
    rw [hmean10, hstd10]
    simp only [calculate_z_score]
    norm_num
  have h1 : (uniformSnapshot 100 100).productivity_score = 100 := rfl
  have h2 : (uniformSnapshot 100 100).strategic_alignment_avg = 100 := rfl
  have h3 : (uniformSnapshot 100 100).pattern_diversity = 100 := rfl
  have h4 : (uniformSnapshot 100 100).success_signal_rate = 100 := rfl
  have h5 : ((uniformSnapshot 100 100).active_hours : ℚ) = 100 := by
    norm_num [uniformSnapshot]
  simp only [List.filterMap_cons, List.filterMap_nil, h1, h2, h3, h4, h5, hcheck]

/-! ## executive_models.py — serialization (ISO dates)

`date.isoformat()` renders `YYYY-MM-DD` and `datetime.isoformat()` renders
`YYYY-MM-DDTHH:MM:SS[.ffffff]` (the fraction only when `microsecond ≠ 0`);
both formats are fixed-width because the CPython constructors bound every
field (`MINYEAR = 1 ≤ year ≤ MAXYEAR = 9999`, etc.).
`date.fromisoformat` / `datetime.fromisoformat` parse exactly these
shapes; their additional calendar-range validation is omitted here since
every string fed to them in this development is produced by `isoformat`
from a constructor-valid value. -/

/-- The decimal digit character for `n < 10`. -/
def digitChar (n : ℕ) : Char := Char.ofNat (48 + n % 10)

/-- The numeric value of a decimal digit character. -/
def digitVal (c : Char) : Option ℕ :=
  if 48 ≤ c.toNat ∧ c.toNat ≤ 57 then some (c.toNat - 48) else none

theorem digitVal_digitChar : ∀ n < 10, digitVal (digitChar n) = some n := by decide

/-- `%02d` rendering of `n ≤ 99`. -/
def pad2 (n : ℕ) : List Char := [digitChar (n / 10 % 10), digitChar (n % 10)]

/-- `%04d` rendering of `n ≤ 9999`. -/
def pad4 (n : ℕ) : List Char :=
  [digitChar (n / 1000 % 10), digitChar (n / 100 % 10),
   digitChar (n / 10 % 10), digitChar (n % 10)]

/-- `%06d` rendering of `n ≤ 999999`. -/
def pad6 (n : ℕ) : List Char :=
  [digitChar (n / 100000 % 10), digitChar (n / 10000 % 10),
   digitChar (n / 1000 % 10), digitChar (n / 100 % 10),
   digitChar (n / 10 % 10), digitChar (n % 10)]

/-- `date.isoformat()`: `YYYY-MM-DD`. -/
def date_isoformat (d : PyDate) : String :=
  ⟨pad4 d.year ++ ['-'] ++ pad2 d.month ++ ['-'] ++ pad2 d.day⟩

/-- Parse two decimal digits, returning the value and the remaining input. -/
def parse2 (l : List Char) : Option (ℕ × List Char) :=
  match l with
  | a :: b :: rest =>
    match digitVal a, digitVal b with
    | some x, some y => some (x * 10 + y, rest)
    | _, _ => none
  | _ => none

/-- Parse four decimal digits. -/
def parse4 (l : List Char) : Option (ℕ × List Char) :=
  match parse2 l with
  | some (hi, r) =>
    match parse2 r with
    | some (lo, r2) => some (hi * 100 + lo, r2)
    | none => none
  | none => none

/-- Parse six decimal digits. -/
def parse6 (l : List Char) : Option (ℕ × List Char) :=
  match parse4 l with
  | some (hi, r) =>
    match parse2 r with
    | some (lo, r2) => some (hi * 100 + lo, r2)
    | none => none
  | none => none

/-- Consume one expected character. -/
def expectChar (c : Char) : List Char → Option (List Char)
  | x :: rest => if x = c then some rest else none
  | [] => none

/-- `date.fromisoformat`: parse exactly `YYYY-MM-DD`. -/
def date_fromisoformat (s : String) : Option PyDate := do
  let (y, r1) ← parse4 s.toList
  let r2 ← expectChar '-' r1
  let (m, r3) ← parse2 r2
  let r4 ← expectChar '-' r3
  let (d, r5) ← parse2 r4
  if r5 = [] then pure ⟨y, m, d⟩ else none

/-- `datetime.isoformat()`: `YYYY-MM-DDTHH:MM:SS`, with `.ffffff` appended
exactly when `microsecond ≠ 0`. -/
def datetime_isoformat (t : PyDateTime) : String :=
  ⟨pad4 t.year ++ ['-'] ++ pad2 t.month ++ ['-'] ++ pad2 t.day ++ ['T'] ++
   pad2 t.hour ++ [':'] ++ pad2 t.minute ++ [':'] ++ pad2 t.second ++
   (if t.microsecond = 0 then [] else ['.'] ++ pad6 t.microsecond)⟩

/-- `datetime.fromisoformat`: parse the two shapes `isoformat` emits
(`YYYY-MM-DDTHH:MM:SS` with an optional `.ffffff` fraction). -/
def datetime_fromisoformat (s : String) : Option PyDateTime := do
  let (y, r1) ← parse4 s.toList
  let r2 ← expectChar '-' r1
  let (mo, r3) ← parse2 r2
  let r4 ← expectChar '-' r3
  let (d, r5) ← parse2 r4
  let r6 ← expectChar 'T' r5
  let (h, r7) ← parse2 r6
  let r8 ← expectChar ':' r7
  let (mi, r9) ← parse2 r8
  let r10 ← expectChar ':' r9
  let (se, r11) ← parse2 r10
  match r11 with
  | [] => pure ⟨y, mo, d, h, mi, se, 0⟩
  | _ => do
    let r12 ← expectChar '.' r11
    let (us, r13) ← parse6 r12
    if r13 = [] then pure ⟨y, mo, d, h, mi, se, us⟩ else none

theorem parse2_pad2 (n : ℕ) (h : n ≤ 99) (rest : List Char) :
    parse2 (pad2 n ++ rest) = some (n, rest) := by
  have e1 := digitVal_digitChar (n / 10 % 10) (Nat.mod_lt _ (by norm_num))
  have e2 := digitVal_digitChar (n % 10) (Nat.mod_lt _ (by norm_num))
  simp only [pad2, List.cons_append, List.nil_append, parse2, e1, e2]
  have hn : n / 10 % 10 * 10 + n % 10 = n := by omega
  rw [hn]

theorem parse4_pad4 (n : ℕ) (h : n ≤ 9999) (rest : List Char) :
    parse4 (pad4 n ++ rest) = some (n, rest) := by
  have e1 := digitVal_digitChar (n / 1000 % 10) (Nat.mod_lt _ (by norm_num))
  have e2 := digitVal_digitChar (n / 100 % 10) (Nat.mod_lt _ (by norm_num))
  have e3 := digitVal_digitChar (n / 10 % 10) (Nat.mod_lt _ (by norm_num))
  have e4 := digitVal_digitChar (n % 10) (Nat.mod_lt _ (by norm_num))
  simp only [pad4, List.cons_append, List.nil_append, parse4, parse2,
    e1, e2, e3, e4]
  have hn : (n / 1000 % 10 * 10 + n / 100 % 10) * 100 +
      (n / 10 % 10 * 10 + n % 10) = n := by omega
  rw [hn]

theorem parse6_pad6 (n : ℕ) (h : n ≤ 999999) (rest : List Char) :
    parse6 (pad6 n ++ rest) = some (n, rest) := by
  have e1 := digitVal_digitChar (n / 100000 % 10) (Nat.mod_lt _ (by norm_num))
  have e2 := digitVal_digitChar (n / 10000 % 10) (Nat.mod_lt _ (by norm_num))
  have e3 := digitVal_digitChar (n / 1000 % 10) (Nat.mod_lt _ (by norm_num))
  have e4 := digitVal_digitChar (n / 100 % 10) (Nat.mod_lt _ (by norm_num))
  have e5 := digitVal_digitChar (n / 10 % 10) (Nat.mod_lt _ (by norm_num))
  have e6 := digitVal_digitChar (n % 10) (Nat.mod_lt _ (by norm_num))
  simp only [pad6, List.cons_append, List.nil_append, parse6, parse4, parse2,
    e1, e2, e3, e4, e5, e6]
  have hn : ((n / 100000 % 10 * 10 + n / 10000 % 10) * 100 +
      (n / 1000 % 10 * 10 + n / 100 % 10)) * 100 +
      (n / 10 % 10 * 10 + n % 10) = n := by omega
  rw [hn]

theorem expectChar_cons (c : Char) (rest : List Char) :
    expectChar c (c :: rest) = some rest := by
  simp [expectChar]

/-- The CPython `date` constructor invariant. -/
def PyDate.Valid (d : PyDate) : Prop :=
  1 ≤ d.year ∧ d.year ≤ 9999 ∧ 1 ≤ d.month ∧ d.month ≤ 12 ∧ 1 ≤ d.day ∧ d.day ≤ 31

instance (d : PyDate) : Decidable d.Valid := by
  unfold PyDate.Valid
  infer_instance

/-- The CPython `datetime` constructor invariant. -/
def PyDateTime.Valid (t : PyDateTime) : Prop :=
  1 ≤ t.year ∧ t.year ≤ 9999 ∧ 1 ≤ t.month ∧ t.month ≤ 12 ∧
  1 ≤ t.day ∧ t.day ≤ 31 ∧ t.hour ≤ 23 ∧ t.minute ≤ 59 ∧
  t.second ≤ 59 ∧ t.microsecond ≤ 999999

instance (t : PyDateTime) : Decidable t.Valid := by
  unfold PyDateTime.Valid
  infer_instance

theorem date_fromisoformat_isoformat (d : PyDate) (h : d.Valid) :
    date_fromisoformat (date_isoformat d) = some d := by
  obtain ⟨y, m, dd⟩ := d
  obtain ⟨-, hy, -, hm, -, hd⟩ := h
  replace hy : y ≤ 9999 := hy
  replace hm : m ≤ 12 := hm
  replace hd : dd ≤ 31 := hd
  have h1 : (date_isoformat ⟨y, m, dd⟩).toList =
      pad4 y ++ ('-' :: (pad2 m ++ ('-' :: (pad2 dd ++ [])))) := by
    simp [date_isoformat, String.toList, List.append_assoc]
  rw [date_fromisoformat, h1, parse4_pad4 y (by omega)]
  simp only [Option.bind_eq_bind', Option.some_bind, expectChar_cons,
    parse2_pad2 m (by omega), parse2_pad2 dd (by omega)]
  rfl

set_option maxHeartbeats 1000000 in
theorem datetime_fromisoformat_isoformat (t : PyDateTime) (h : t.Valid) :
    datetime_fromisoformat (datetime_isoformat t) = some t := by
  obtain ⟨y, m, dd, hh, mi, ss, us⟩ := t
  obtain ⟨-, hy, -, hm, -, hd, hhh, hmi, hss, hus⟩ := h
  replace hy : y ≤ 9999 := hy
  replace hm : m ≤ 12 := hm
  replace hd : dd ≤ 31 := hd
  replace hhh : hh ≤ 23 := hhh
  replace hmi : mi ≤ 59 := hmi
  replace hss : ss ≤ 59 := hss
  replace hus : us ≤ 999999 := hus
  by_cases hus0 : us = 0
  · subst hus0
    have h1 : (datetime_isoformat ⟨y, m, dd, hh, mi, ss, 0⟩).toList =
        pad4 y ++ ('-' :: (pad2 m ++ ('-' :: (pad2 dd ++ ('T' ::
          (pad2 hh ++ (':' :: (pad2 mi ++ (':' :: (pad2 ss ++ [])))))))))) := by
      simp [datetime_isoformat, String.toList, List.append_assoc]
    rw [datetime_fromisoformat, h1, parse4_pad4 y (by omega)]
    simp only [Option.bind_eq_bind', Option.some_bind, expectChar_cons,
      parse2_pad2 m (by omega), parse2_pad2 dd (by omega),
      parse2_pad2 hh (by omega), parse2_pad2 mi (by omega),
      parse2_pad2 ss (by omega)]
    rfl
  · have h1 : (datetime_isoformat ⟨y, m, dd, hh, mi, ss, us⟩).toList =
        pad4 y ++ ('-' :: (pad2 m ++ ('-' :: (pad2 dd ++ ('T' ::
          (pad2 hh ++ (':' :: (pad2 mi ++ (':' :: (pad2 ss ++
            ('.' :: (pad6 us ++ [])))))))))))) := by
      simp [datetime_isoformat, String.toList, List.append_assoc, hus0]
    rw [datetime_fromisoformat, h1, parse4_pad4 y (by omega)]
    simp only [Option.bind_eq_bind', Option.some_bind, expectChar_cons,
      parse2_pad2 m (by omega), parse2_pad2 dd (by omega),
      parse2_pad2 hh (by omega), parse2_pad2 mi (by omega),
      parse2_pad2 ss (by omega), parse6_pad6 us (by omega)]
    rfl

/-! ## executive_models.py — serialization (models and dicts) -/

/-- Arbitrary JSON-serialisable Python values carried through the dicts
untouched (`data_evidence`, `metadata`). -/
inductive PyVal where
  | pstr : String → PyVal
  | pnum : ℚ → PyVal
  | pbool : Bool → PyVal
  | pnone : PyVal
  | plist : List PyVal → PyVal
  | pdict : List (String × PyVal) → PyVal

theorem trendDirectionOfValue_value (d : TrendDirection) :
    trendDirectionOfValue d.value = some d := by
  cases d <;> rfl

theorem trendSignificanceOfValue_value (s : TrendSignificance) :
    trendSignificanceOfValue s.value = some s := by
  cases s <;> rfl

theorem alertSeverityOfValue_value (s : AlertSeverity) :
    alertSeverityOfValue s.value = some s := by
  cases s <;> rfl

theorem alertCategoryOfValue_value (c : AlertCategory) :
    alertCategoryOfValue c.value = some c := by
  cases c <;> rfl

theorem progressIndicatorOfValue_value (p : ProgressIndicator) :
    progressIndicatorOfValue p.value = some p := by
  cases p <;> rfl

/-- Embeds dataclass `ExecutiveAlert` (executive_models.py lines 153-168). -/
structure ExecutiveAlert where
  alert_id : String
  severity : AlertSeverity
  category : AlertCategory
  title : String
  description : String
  data_evidence : PyVal
  suggested_actions : List String
  created_at : PyDateTime
  acknowledged : Bool
  threshold_triggered : Option ℚ

/-- The dict written by `WeeklySnapshot.to_dict` (executive_models.py
lines 78-91), as a typed record: one field per key; keys that
`from_dict` reads back through `.get` (with a default) are `Option`s. -/
structure WeeklySnapshotDict where
  period_start : String
  period_end : String
  total_events : ℤ
  productivity_score : ℚ
  strategic_alignment_avg : ℚ
  top_patterns : List String
  anomalies_detected : ℤ
  pattern_diversity : Option ℚ
  success_signal_rate : Option ℚ
  active_hours : Option ℤ

/-- Embeds `WeeklySnapshot.to_dict` (executive_models.py lines 78-91). -/
def WeeklySnapshot.to_dict (s : WeeklySnapshot) : WeeklySnapshotDict :=
  { period_start := date_isoformat s.period_start
    period_end := date_isoformat s.period_end
    total_events := s.total_events
    productivity_score := s.productivity_score
    strategic_alignment_avg := s.strategic_alignment_avg
    top_patterns := s.top_patterns
    anomalies_detected := s.anomalies_detected
    pattern_diversity := some s.pattern_diversity
    success_signal_rate := some s.success_signal_rate
    active_hours := some s.active_hours }

/-- Embeds `WeeklySnapshot.from_dict` (executive_models.py lines 93-107):
`date.fromisoformat` raises on malformed input (`none` here); the three
`.get` keys fall back to their stated defaults. -/
def WeeklySnapshot.from_dict (d : WeeklySnapshotDict) : Option WeeklySnapshot :=
  match date_fromisoformat d.period_start, date_fromisoformat d.period_end with
  | some ps, some pe =>
    some { period_start := ps
           period_end := pe
           total_events := d.total_events
           productivity_score := d.productivity_score
           strategic_alignment_avg := d.strategic_alignment_avg
           top_patterns := d.top_patterns
           anomalies_detected := d.anomalies_detected
           pattern_diversity := d.pattern_diversity.getD 0
           success_signal_rate := d.success_signal_rate.getD 0
           active_hours := d.active_hours.getD 0 }
  | _, _ => none

theorem weeklySnapshot_roundtrip (s : WeeklySnapshot)
    (h1 : s.period_start.Valid) (h2 : s.period_end.Valid) :
    WeeklySnapshot.from_dict (WeeklySnapshot.to_dict s) = some s := by
  simp only [WeeklySnapshot.to_dict, WeeklySnapshot.from_dict,
    date_fromisoformat_isoformat s.period_start h1,
    date_fromisoformat_isoformat s.period_end h2, Option.getD_some]

/-- The dict written by `TrendMetric.to_dict` (executive_models.py lines
125-136). -/
structure TrendMetricDict where
  metric_name : String
  current_value : ℚ
  previous_value : ℚ
  change_percent : ℚ
  trend_direction : String
  significance : String
  z_score : Option ℚ
  data_points : Option ℤ

/-- Embeds `TrendMetric.to_dict` (executive_models.py lines 125-136):
enums stored by their `.value` strings. -/
def TrendMetric.to_dict (m : TrendMetric) : TrendMetricDict :=
  { metric_name := m.metric_name
    current_value := m.current_value
    previous_value := m.previous_value
    change_percent := m.change_percent
    trend_direction := m.trend_direction.value
    significance := m.significance.value
    z_score := some m.z_score
    data_points := some m.data_points }

/-- Embeds `TrendMetric.from_dict` (executive_models.py lines 138-150):
`TrendDirection(...)`/`TrendSignificance(...)` raise on unknown values. -/
def TrendMetric.from_dict (d : TrendMetricDict) : Option TrendMetric :=
  match trendDirectionOfValue d.trend_direction,
        trendSignificanceOfValue d.significance with
  | some td, some sg =>
    some { metric_name := d.metric_name
           current_value := d.current_value
           previous_value := d.previous_value
           change_percent := d.change_percent
           trend_direction := td
           significance := sg
           z_score := d.z_score.getD 0
           data_points := d.data_points.getD 1 }
  | _, _ => none

theorem trendMetric_roundtrip (m : TrendMetric) :
    TrendMetric.from_dict (TrendMetric.to_dict m) = some m := by
  simp only [TrendMetric.to_dict, TrendMetric.from_dict,
    trendDirectionOfValue_value, trendSignificanceOfValue_value,
    Option.getD_some]

/-- The dict written by `ExecutiveAlert.to_dict` (executive_models.py
lines 170-183). -/
structure ExecutiveAlertDict where
  alert_id : String
  severity : String
  category : String
  title : String
  description : String
  data_evidence : PyVal
  suggested_actions : List String
  created_at : String
  acknowledged : Option Bool
  threshold_triggered : Option ℚ

/-- Embeds `ExecutiveAlert.to_dict` (executive_models.py lines 170-183). -/
def ExecutiveAlert.to_dict (a : ExecutiveAlert) : ExecutiveAlertDict :=
  { alert_id := a.alert_id
    severity := a.severity.value
    category := a.category.value
    title := a.title
    description := a.description
    data_evidence := a.data_evidence
    suggested_actions := a.suggested_actions
    created_at := datetime_isoformat a.created_at
    acknowledged := some a.acknowledged
    threshold_triggered := a.threshold_triggered }

/-- Embeds `ExecutiveAlert.from_dict` (executive_models.py lines
185-199). -/
def ExecutiveAlert.from_dict (d : ExecutiveAlertDict) : Option ExecutiveAlert :=
  match alertSeverityOfValue d.severity, alertCategoryOfValue d.category,
        datetime_fromisoformat d.created_at with
  | some sv, some cat, some ts =>
    some { alert_id := d.alert_id
           severity := sv
           category := cat
           title := d.title
           description := d.description
           data_evidence := d.data_evidence
           suggested_actions := d.suggested_actions
           created_at := ts
           acknowledged := d.acknowledged.getD false
           threshold_triggered := d.threshold_triggered }
  | _, _, _ => none

theorem executiveAlert_roundtrip (a : ExecutiveAlert)
    (h : a.created_at.Valid) :
    ExecutiveAlert.from_dict (ExecutiveAlert.to_dict a) = some a := by
  simp only [ExecutiveAlert.to_dict, ExecutiveAlert.from_dict,
    alertSeverityOfValue_value, alertCategoryOfValue_value,
    datetime_fromisoformat_isoformat a.created_at h, Option.getD_some]

/-- The dict written by `GoalCorrelation.to_dict` (executive_models.py
lines 217-228). -/
structure GoalCorrelationDict where
  okr_id : String
  okr_title : String
  aligned_patterns : List String
  alignment_score : ℚ
  progress_indicator : String
  recommendations : List String
  evidence_count : Option ℕ
  last_activity : Option String

/-- Embeds `GoalCorrelation.to_dict` (executive_models.py lines 217-228):
`last_activity.isoformat() if last_activity else None`. -/
def GoalCorrelation.to_dict (g : GoalCorrelation) : GoalCorrelationDict :=
  { okr_id := g.okr_id
    okr_title := g.okr_title
    aligned_patterns := g.aligned_patterns
    alignment_score := g.alignment_score
    progress_indicator := g.progress_indicator.value
    recommendations := g.recommendations
    evidence_count := some g.evidence_count
    last_activity := g.last_activity.map datetime_isoformat }

/-- Embeds `GoalCorrelation.from_dict` (executive_models.py lines
230-242): `last_activity` is parsed only when `data.get("last_activity")`
is truthy (absent and the empty string are falsy). -/
def GoalCorrelation.from_dict (d : GoalCorrelationDict) : Option GoalCorrelation :=
  match progressIndicatorOfValue d.progress_indicator with
  | none => none
  | some prog =>
    match d.last_activity with
    | none =>
      some { okr_id := d.okr_id, okr_title := d.okr_title
             aligned_patterns := d.aligned_patterns
             alignment_score := d.alignment_score
             progress_indicator := prog
             recommendations := d.recommendations
             evidence_count := d.evidence_count.getD 0
             last_activity := none }
    | some str =>
      if str = "" then
        some { okr_id := d.okr_id, okr_title := d.okr_title
               aligned_patterns := d.aligned_patterns
               alignment_score := d.alignment_score
               progress_indicator := prog
               recommendations := d.recommendations
               evidence_count := d.evidence_count.getD 0
               last_activity := none }
      else
        match datetime_fromisoformat str with
        | some ts =>
          some { okr_id := d.okr_id, okr_title := d.okr_title
                 aligned_patterns := d.aligned_patterns
                 alignment_score := d.alignment_score
                 progress_indicator := prog
                 recommendations := d.recommendations
                 evidence_count := d.evidence_count.getD 0
                 last_activity := some ts }
        | none => none

theorem datetime_isoformat_ne_empty (t : PyDateTime) :
    datetime_isoformat t ≠ "" := by
  intro hc
  have h2 := congrArg String.toList hc
  simp [datetime_isoformat, String.toList, pad4] at h2

theorem goalCorrelation_roundtrip (g : GoalCorrelation)
    (h : ∀ t, g.last_activity = some t → t.Valid) :
    GoalCorrelation.from_dict (GoalCorrelation.to_dict g) = some g := by
  obtain ⟨oid, otitle, ap, sc, prog, recs, ec, la⟩ := g
  cases la with
  | none =>
    simp only [GoalCorrelation.to_dict, GoalCorrelation.from_dict,
      progressIndicatorOfValue_value, Option.map_none', Option.getD_some]
  | some t =>
    have hv : t.Valid := h t rfl
    simp only [GoalCorrelation.to_dict, GoalCorrelation.from_dict,
      progressIndicatorOfValue_value, Option.map_some', Option.getD_some,
      if_neg (datetime_isoformat_ne_empty t),
      datetime_fromisoformat_isoformat t hv]

/-- Embeds dataclass `ExecutiveInsightReport` (executive_models.py lines
245-257); `metadata` (a Python dict) is carried as a `PyVal`. -/
structure ExecutiveInsightReport where
  generated_at : PyDateTime
  weekly_snapshot : WeeklySnapshot
  trend_metrics : List TrendMetric
  alerts : List ExecutiveAlert
  goal_correlations : List GoalCorrelation
  summary : String
  metadata : PyVal

/-- The dict written by `ExecutiveInsightReport.to_dict`
(executive_models.py lines 280-290). -/
structure ExecutiveInsightReportDict where
  generated_at : String
  weekly_snapshot : WeeklySnapshotDict
  trend_metrics : List TrendMetricDict
  alerts : List ExecutiveAlertDict
  goal_correlations : List GoalCorrelationDict
  summary : String
  metadata : Option PyVal

/-- Embeds `ExecutiveInsightReport.to_dict` (executive_models.py lines
280-290). -/
def ExecutiveInsightReport.to_dict
    (r : ExecutiveInsightReport) : ExecutiveInsightReportDict :=
  { generated_at := datetime_isoformat r.generated_at
    weekly_snapshot := r.weekly_snapshot.to_dict
    trend_metrics := r.trend_metrics.map TrendMetric.to_dict
    alerts := r.alerts.map ExecutiveAlert.to_dict
    goal_correlations := r.goal_correlations.map GoalCorrelation.to_dict
    summary := r.summary
    metadata := some r.metadata }

/-- Embeds `ExecutiveInsightReport.from_dict` (executive_models.py lines
292-303): the list comprehensions raise on the first bad element
(`mapM`), `metadata` falls back to the empty dict. -/
def ExecutiveInsightReport.from_dict
    (d : ExecutiveInsightReportDict) : Option ExecutiveInsightReport :=
  match datetime_fromisoformat d.generated_at,
        WeeklySnapshot.from_dict d.weekly_snapshot,
        d.trend_metrics.mapM TrendMetric.from_dict,
        d.alerts.mapM ExecutiveAlert.from_dict,
        d.goal_correlations.mapM GoalCorrelation.from_dict with
  | some ts, some ws, some tms, some als, some gcs =>
    some { generated_at := ts
           weekly_snapshot := ws
           trend_metrics := tms
           alerts := als
           goal_correlations := gcs
           summary := d.summary
           metadata := d.metadata.getD (PyVal.pdict []) }
  | _, _, _, _, _ => none

theorem mapM_map_roundtrip {α β : Type} (f : α → β) (g : β → Option α) :
    ∀ l : List α, (∀ x ∈ l, g (f x) = some x) → (l.map f).mapM g = some l := by
  intro l
  induction l with
  | nil => intro _; rfl
  | cons x xs ih =>
    intro h
    rw [List.map_cons, List.mapM_cons, h x (List.mem_cons_self x xs),
      ih fun y hy => h y (List.mem_cons_of_mem x hy)]
    rfl

theorem executiveInsightReport_roundtrip (r : ExecutiveInsightReport)
    (h1 : r.generated_at.Valid)
    (h2 : r.weekly_snapshot.period_start.Valid)
    (h3 : r.weekly_snapshot.period_end.Valid)
    (h4 : ∀ a ∈ r.alerts, a.created_at.Valid)
    (h5 : ∀ g ∈ r.goal_correlations, ∀ t, g.last_activity = some t → t.Valid) :
    ExecutiveInsightReport.from_dict (ExecutiveInsightReport.to_dict r) =
      some r := by
  have hm1 : (r.trend_metrics.map TrendMetric.to_dict).mapM TrendMetric.from_dict =
      some r.trend_metrics :=
    mapM_map_roundtrip _ _ _ fun m _ => trendMetric_roundtrip m
  have hm2 : (r.alerts.map ExecutiveAlert.to_dict).mapM ExecutiveAlert.from_dict =
      some r.alerts :=
    mapM_map_roundtrip _ _ _ fun a ha => executiveAlert_roundtrip a (h4 a ha)
  have hm3 : (r.goal_correlations.map GoalCorrelation.to_dict).mapM
      GoalCorrelation.from_dict = some r.goal_correlations :=
    mapM_map_roundtrip _ _ _ fun g hg => goalCorrelation_roundtrip g (h5 g hg)
  simp only [ExecutiveInsightReport.to_dict, ExecutiveInsightReport.from_dict,
    datetime_fromisoformat_isoformat r.generated_at h1,
    weeklySnapshot_roundtrip r.weekly_snapshot h2 h3,
    hm1, hm2, hm3, Option.getD_some]

/-! ## Theorems for claim C9 -/

/-- C9: for every well-formed value (dates/datetimes within the CPython
constructor bounds), deserializing the serialization reproduces an equal
value for all fields, for each of the five report/model types:
`WeeklySnapshot`, `TrendMetric`, `ExecutiveAlert`, `GoalCorrelation` and
`ExecutiveInsightReport`. -/
theorem c9_serialization_roundtrip :
    (∀ s : WeeklySnapshot, s.period_start.Valid → s.period_end.Valid →
      WeeklySnapshot.from_dict (WeeklySnapshot.to_dict s) = some s) ∧
    (∀ m : TrendMetric,
      TrendMetric.from_dict (TrendMetric.to_dict m) = some m) ∧
    (∀ a : ExecutiveAlert, a.created_at.Valid →
      ExecutiveAlert.from_dict (ExecutiveAlert.to_dict a) = some a) ∧
    (∀ g : GoalCorrelation, (∀ t, g.last_activity = some t → t.Valid) →
      GoalCorrelation.from_dict (GoalCorrelation.to_dict g) = some g) ∧
    (∀ r : ExecutiveInsightReport, r.generated_at.Valid →
      r.weekly_snapshot.period_start.Valid →
      r.weekly_snapshot.period_end.Valid →
      (∀ a ∈ r.alerts, a.created_at.Valid) →
      (∀ g ∈ r.goal_correlations, ∀ t, g.last_activity = some t → t.Valid) →
      ExecutiveInsightReport.from_dict (ExecutiveInsightReport.to_dict r) =
        some r) :=
  ⟨weeklySnapshot_roundtrip, trendMetric_roundtrip, executiveAlert_roundtrip,
   goalCorrelation_roundtrip, executiveInsightReport_roundtrip⟩

/-- Closed witness for `c9_serialization_roundtrip` at a concrete
snapshot. -/
theorem c9_witness :
    (⟨2026, 1, 6⟩ : PyDate).Valid ∧ (⟨2026, 1, 12⟩ : PyDate).Valid ∧
    WeeklySnapshot.from_dict (WeeklySnapshot.to_dict
      ⟨⟨2026, 1, 6⟩, ⟨2026, 1, 12⟩, 5, 1/2, 1/2, ["a"], 0, 1/4, 1/5, 8⟩) =
      some ⟨⟨2026, 1, 6⟩, ⟨2026, 1, 12⟩, 5, 1/2, 1/2, ["a"], 0, 1/4, 1/5, 8⟩ :=
  ⟨by decide, by decide,
   c9_serialization_roundtrip.1
     ⟨⟨2026, 1, 6⟩, ⟨2026, 1, 12⟩, 5, 1/2, 1/2, ["a"], 0, 1/4, 1/5, 8⟩
     (by decide) (by decide)⟩

/-! ## Theorems for claim C10 -/

/-- C10 counterexample: the claim's hypotheses (`total_events > 0`,
`success_signals ≥ 0`, `avg_confidence ∈ [0,1]`) do not constrain
`active_hours`; at `active_hours = -100` (a Python `int` input) the
weighted formula yields `0.3 · min(1, -100/8) = -15/4 ∉ [0,1]`. -/
theorem c10_counterexample :
    (0 : ℤ) < 5 ∧ (0 : ℤ) ≤ 0 ∧ (0 : ℚ) ≤ 0 ∧ (0 : ℚ) ≤ 1 ∧
    calculate_productivity_score 0 5 0 (-100) = -15/4 ∧
    ¬(0 ≤ calculate_productivity_score 0 5 0 (-100)) := by
  have hv : calculate_productivity_score 0 5 0 (-100) = -15/4 := by
    norm_num [calculate_productivity_score, pyMin, pyMax]
  refine ⟨by norm_num, le_refl _, le_refl _, by norm_num, hv, ?_⟩
  rw [hv]
  norm_num

/-- C10 amended: `calculate_productivity_score` returns exactly `0` whenever
`total_events = 0` regardless of the other arguments, and for
`total_events > 0`, `success_signals ≥ 0`, `avg_confidence ∈ [0,1]` and —
added, forced by the counterexample — `active_hours ≥ 0`, the result lies
in `[0,1]`. -/
theorem c10_amended :
    (∀ (s : ℤ) (c : ℚ) (h : ℤ), calculate_productivity_score s 0 c h = 0) ∧
    (∀ (s t : ℤ) (c : ℚ) (h : ℤ), 0 < t → 0 ≤ s → 0 ≤ c → c ≤ 1 → 0 ≤ h →
      0 ≤ calculate_productivity_score s t c h ∧
        calculate_productivity_score s t c h ≤ 1) := by
  constructor
  · intro s c h
    simp [calculate_productivity_score]
  · intro s t c h ht hs hc0 hc1 hh
    have htne : t ≠ 0 := ne_of_gt ht
    have hmax : ((max 1 t : ℤ) : ℚ) > 0 := by
      have : (1 : ℤ) ≤ max 1 t := le_max_left _ _
      exact_mod_cast lt_of_lt_of_le zero_lt_one this
    have hsr0 : (0 : ℚ) ≤ (s : ℚ) / ((max 1 t : ℤ) : ℚ) := by
      apply div_nonneg _ (le_of_lt hmax)
      exact_mod_cast hs
    have hact0 : (0 : ℚ) ≤ (h : ℚ) / 8 := by
      apply div_nonneg _ (by norm_num)
      exact_mod_cast hh
    have h1 : (0 : ℚ) ≤ min 1 ((s : ℚ) / ((max 1 t : ℤ) : ℚ)) :=
      le_min (by norm_num) hsr0
    have h2 : min 1 ((s : ℚ) / ((max 1 t : ℤ) : ℚ)) ≤ 1 := min_le_left _ _
    have h3 : (0 : ℚ) ≤ min 1 ((h : ℚ) / 8) := le_min (by norm_num) hact0
    have h4 : min 1 ((h : ℚ) / 8) ≤ 1 := min_le_left _ _
    simp only [calculate_productivity_score, htne, if_false, pyMin_eq_min, pyMax_eq_max]
    constructor
    · nlinarith
    · nlinarith

/-- Closed witness for `c10_amended` at concrete inputs. -/
theorem c10_witness :
    (0 : ℤ) < 4 ∧
    (0 ≤ calculate_productivity_score 2 4 (1/2) 4 ∧
      calculate_productivity_score 2 4 (1/2) 4 ≤ 1) :=
  ⟨by norm_num,
   c10_amended.2 2 4 (1/2) 4 (by norm_num) (by norm_num) (by norm_num)
     (by norm_num) (by norm_num)⟩

/-! ## Theorems for claim C2 -/

/-- C2 counterexample: the claim asserts `calculate_jaccard_similarity(A,B) = 1.0`
whenever `A == B` as sets, but for `A = B = ∅` the code takes the
empty-set guard and returns `0.0`, not `1.0`. -/
theorem c2_counterexample :
    calculate_jaccard_similarity (∅ : Finset String) ∅ = 0 ∧
    ((0 : ℚ) ≠ 1 ∧ (∅ : Finset String) = (∅ : Finset String)) := by
  refine ⟨?_, by norm_num, rfl⟩
  simp [calculate_jaccard_similarity]

/-- C2 amended: for every pair of sets, the similarity is in `[0,1]`,
symmetric, `0` whenever either set is empty, and — restricted to a
nonempty first argument (forced by the `∅, ∅` counterexample) — equals `1`
iff the two sets are equal. -/
theorem c2_amended :
    (∀ A B : Finset String,
        0 ≤ calculate_jaccard_similarity A B ∧ calculate_jaccard_similarity A B ≤ 1) ∧
    (∀ A B : Finset String,
        calculate_jaccard_similarity A B = calculate_jaccard_similarity B A) ∧
    (∀ A B : Finset String, (A = ∅ ∨ B = ∅) → calculate_jaccard_similarity A B = 0) ∧
    (∀ A B : Finset String, A ≠ ∅ →
        (calculate_jaccard_similarity A B = 1 ↔ A = B)) := by
  have hval : ∀ A B : Finset String, ¬(A = ∅ ∨ B = ∅) →
      calculate_jaccard_similarity A B =
        ((A ∩ B).card : ℚ) / ((A ∪ B).card : ℚ) := by
    intro A B h
    have hA : A ≠ ∅ := fun hc => h (Or.inl hc)
    have hApos : 0 < (A ∪ B).card := by
      have : A.Nonempty := Finset.nonempty_iff_ne_empty.mpr hA
      obtain ⟨a, ha⟩ := this
      exact Finset.card_pos.mpr ⟨a, Finset.mem_union_left _ ha⟩
    simp [calculate_jaccard_similarity, h, hApos]
  refine ⟨?_, ?_, ?_, ?_⟩
  · intro A B
    by_cases h : A = ∅ ∨ B = ∅
    · simp [calculate_jaccard_similarity, h]
    · rw [hval A B h]
      have hle : (A ∩ B).card ≤ (A ∪ B).card :=
        Finset.card_le_card Finset.inter_subset_union
      have hupos : (0 : ℚ) < ((A ∪ B).card : ℚ) := by
        have hA : A ≠ ∅ := fun hc => h (Or.inl hc)
        have : A.Nonempty := Finset.nonempty_iff_ne_empty.mpr hA
        obtain ⟨a, ha⟩ := this
        exact_mod_cast Finset.card_pos.mpr ⟨a, Finset.mem_union_left _ ha⟩
      constructor
      · positivity
      · rw [div_le_one hupos]
        exact_mod_cast hle
  · intro A B
    simp [calculate_jaccard_similarity, Finset.inter_comm, Finset.union_comm, or_comm]
  · intro A B h
    simp [calculate_jaccard_similarity, h]
  · intro A B hA
    by_cases hB : B = ∅
    · subst hB
      constructor
      · intro h1
        exfalso
        have : calculate_jaccard_similarity A ∅ = 0 := by
          simp [calculate_jaccard_similarity]
        rw [this] at h1
        norm_num at h1
      · intro hEq
        exact absurd hEq.symm (Ne.symm hA)
    · have h : ¬(A = ∅ ∨ B = ∅) := by
        rintro (h | h)
        · exact hA h
        · exact hB h
      rw [hval A B h]
      have hupos : (0 : ℚ) < ((A ∪ B).card : ℚ) := by
        have : A.Nonempty := Finset.nonempty_iff_ne_empty.mpr hA
        obtain ⟨a, ha⟩ := this
        exact_mod_cast Finset.card_pos.mpr ⟨a, Finset.mem_union_left _ ha⟩
      constructor
      · intro h1
        rw [div_eq_one_iff_eq (ne_of_gt hupos)] at h1
        have hcard : (A ∩ B).card = (A ∪ B).card := by exact_mod_cast h1
        have hsub : A ∪ B ⊆ A ∩ B :=
          Finset.eq_of_subset_of_card_le Finset.inter_subset_union
            (le_of_eq hcard.symm) ▸ Finset.Subset.refl _
        have hAB : A ⊆ B := fun x hx =>
          Finset.mem_of_mem_inter_right (hsub (Finset.mem_union_left _ hx))
        have hBA : B ⊆ A := fun x hx =>
          Finset.mem_of_mem_inter_left (hsub (Finset.mem_union_right _ hx))
        exact Finset.Subset.antisymm hAB hBA
      · intro hEq
        subst hEq
        have hc : ((A.card : ℚ)) ≠ 0 := by
          have hne : A.Nonempty := Finset.nonempty_iff_ne_empty.mpr hA
          have := Finset.card_pos.mpr hne
          positivity
        rw [Finset.inter_self, Finset.union_self, div_self hc]

/-- Closed witness for `c2_amended` at concrete sets. -/
theorem c2_witness :
    ({"a"} : Finset String) ≠ ∅ ∧
    (calculate_jaccard_similarity ({"a"} : Finset String) {"a"} = 1 ↔
      ({"a"} : Finset String) = {"a"}) :=
  ⟨by decide, c2_amended.2.2.2 {"a"} {"a"} (by decide)⟩

end AgencyAccess
